import Mathlib

/-!
# grafeas-rds: configuration, connector and storage provider

A shallow embedding of `rds/config/config.go`, `rds/connector.go` and
`go/v1beta1/storage/storage.go`.

* Go strings are Lean strings. Go `int` is `Int`: the integers of the
  configuration are only compared and printed, except for the two pool
  durations, whose `int64` multiplication is taken modulo `2^64`.
* A Go `error` is `Option String`: `none` is `nil`, `some msg` is an error whose
  `Error()` text is `msg`.
* A Go result pair `(*T, error)` is a Lean pair `Option T × Option String`.
* Library functions the program calls (`url.Parse`,
  `config.ConvertGenericConfigToSpecificType`, `rdsutils.BuildAuthToken`, the
  credentials creator, the storage creator, the driver) are parameters of the
  definitions that call them.
* Effects (log lines, calls to collaborators, the start of the renewal
  goroutine) are recorded, in program order, in an explicit list of events.
* The loop of the renewal goroutine is run on a list of what the successive
  evaluations of its `select` find ready.
-/

namespace GrafeasRds

/-! ## The fragment of `fmt.Sprintf` the program uses -/

/-- An operand of `fmt.Sprintf`. An `error` operand is passed as the text of its
`Error()` method, which is what the verb `%v` prints for it. -/
inductive FmtArg where
  | str (s : String)
  | int (n : Int)
  deriving DecidableEq, Repr

/-- Decimal digits of `u`, least significant first, as the integer formatter
writes them into its buffer from the end (`fuel` bounds the loop). -/
def digitsRev : Nat → Nat → List Char
  | 0, _ => []
  | fuel + 1, u =>
    if u < 10 then [Nat.digitChar u]
    else Nat.digitChar (u % 10) :: digitsRev fuel (u / 10)

/-- Decimal text of a natural number. -/
def fmtUint (u : Nat) : List Char := (digitsRev (u + 1) u).reverse

/-- Decimal text of an integer (`%d`, and `%v` on an `int`): a minus sign for a
negative number, then the digits of its magnitude. -/
def fmtInt : Int → List Char
  | Int.ofNat u => fmtUint u
  | Int.negSucc u => '-' :: fmtUint (u + 1)

/-- Does the verb apply to the operand: `%s` and `%v` to a string, `%d` and `%v`
to an integer. -/
def FmtArg.accepts (verb : Char) : FmtArg → Bool
  | FmtArg.str _ => verb = 's' || verb = 'v'
  | FmtArg.int _ => verb = 'd' || verb = 'v'

/-- The Go type name printed in a diagnostic. -/
def FmtArg.typeName : FmtArg → List Char
  | FmtArg.str _ => "string".data
  | FmtArg.int _ => "int".data

/-- The operand printed with its default format. -/
def FmtArg.value : FmtArg → List Char
  | FmtArg.str s => s.data
  | FmtArg.int n => fmtInt n

/-- One directive applied to one operand; a verb that does not apply prints the
bad-verb diagnostic `%!verb(type=value)`. -/
def formatVerb (verb : Char) (a : FmtArg) : List Char :=
  if a.accepts verb then a.value
  else '%' :: '!' :: verb :: '(' :: (a.typeName ++ '=' :: (a.value ++ [')']))

/-- The diagnostic for operands left over when the format is exhausted. -/
def extraArgs : List FmtArg → List Char
  | [] => []
  | [a] => a.typeName ++ '=' :: a.value
  | a :: b :: rest => a.typeName ++ '=' :: (a.value ++ ',' :: ' ' :: extraArgs (b :: rest))

/-- The scanning loop of `Sprintf`: literal characters are copied, `%%` prints a
percent sign, `%` followed by a verb consumes the next operand. Flags, width,
precision and explicit argument indexes are outside the fragment (no format
string of the program has them). -/
def sprintfAux : List Char → List FmtArg → List Char
  | [], [] => []
  | [], a :: as => "%!(EXTRA ".data ++ extraArgs (a :: as) ++ [')']
  | c :: rest, args =>
    if c = '%' then
      match rest, args with
      | [], [] => "%!(NOVERB)".data
      | [], a :: as => "%!(NOVERB)".data ++ ("%!(EXTRA ".data ++ extraArgs (a :: as) ++ [')'])
      | verb :: rest2, args2 =>
        if verb = '%' then '%' :: sprintfAux rest2 args2
        else
          match args2 with
          | [] => '%' :: '!' :: verb :: ("(MISSING)".data ++ sprintfAux rest2 [])
          | a :: as => formatVerb verb a ++ sprintfAux rest2 as
    else c :: sprintfAux rest args

/-- Model of `fmt.Sprintf` on the fragment above. -/
def Sprintf (format : String) (args : List FmtArg) : String :=
  String.mk (sprintfAux format.data args)

/-- Model of `fmt.Errorf`: an error whose text is the formatted string. -/
def Errorf (format : String) (args : List FmtArg) : Option String :=
  some (Sprintf format args)

/-! ## `rds/config/config.go` -/

def emptyFieldErrTemplate : String := "invalid field: \"%s\" must not be empty"

def defaultPort : Int := 5432
def defaultDBName : String := "grafeas"
def defaultSSLMode : String := "verify-full"
def defaultRenewThresholdInSeconds : Int := 600

/-- Connection pool settings; no defaults, 0 is a valid value. -/
structure ConnPoolConfig where
  MaxOpenConns : Int := 0
  MaxIdleConns : Int := 0
  ConnMaxLifetimeInSeconds : Int := 0
  ConnMaxIdleTimeInSeconds : Int := 0
  deriving DecidableEq, Repr

/-- Settings of the ZTS credentials provider. -/
structure ZTSCredentialProviderConfig where
  APIEndpoint : String := ""
  AthenzDomain : String := ""
  IAMRole : String := ""
  ExternalID : String := ""
  RenewThresholdInSeconds : Int := 0
  deriving DecidableEq, Repr

/-- Settings needed to get a temporary DB password (a token) from the AWS API. -/
structure IAMAuthConfig where
  Region : String := ""
  CredentialsProvider : ZTSCredentialProviderConfig := {}
  deriving DecidableEq, Repr

/-- The configuration of the PostgreSQL store. The default value of every field
is the Go zero value, so `({} : Config)` is `var c Config`. -/
structure Config where
  Host : String := ""
  Port : Int := 0
  DBName : String := ""
  User : String := ""
  Password : String := ""
  SSLMode : String := ""
  SSLRootCert : String := ""
  PaginationKey : String := ""
  ConnPool : ConnPoolConfig := {}
  IAMAuth : IAMAuthConfig := {}
  /-- Modelled from the spec: the designated reader host of the reader/writer
  split (`conf.Reader` in `ProvideRW`); the `Config` of `go/config` that declares
  it is not among the sources. It has no default and no validation rule. -/
  Reader : String := ""
  deriving DecidableEq, Repr

def ZTSCredentialProviderConfig.populateDefaultValues
    (c : ZTSCredentialProviderConfig) : ZTSCredentialProviderConfig :=
  if c.RenewThresholdInSeconds = 0 then
    { c with RenewThresholdInSeconds := defaultRenewThresholdInSeconds }
  else c

def IAMAuthConfig.populateDefaultValues (c : IAMAuthConfig) : IAMAuthConfig :=
  { c with CredentialsProvider := c.CredentialsProvider.populateDefaultValues }

def Config.populateDefaultValues (c : Config) : Config :=
  let c := if c.Port = 0 then { c with Port := defaultPort } else c
  let c := if c.DBName = "" then { c with DBName := defaultDBName } else c
  let c := if c.SSLMode = "" then { c with SSLMode := defaultSSLMode } else c
  { c with IAMAuth := c.IAMAuth.populateDefaultValues }

/-- `urlParse s` is the error of `url.Parse(s)`: `none` when `s` parses, the
error text otherwise. -/
def ZTSCredentialProviderConfig.validate (urlParse : String → Option String)
    (c : ZTSCredentialProviderConfig) : Option String :=
  match urlParse c.APIEndpoint with
  | some err =>
    Errorf "invalid field: \"ZTSCredentialProviderConfig.APIEndpoint\" should be a valid url, err: %v"
      [FmtArg.str err]
  | none =>
    if c.AthenzDomain = "" then
      Errorf emptyFieldErrTemplate [FmtArg.str "ZTSCredentialProviderConfig.AthenzDomain"]
    else if c.IAMRole = "" then
      Errorf emptyFieldErrTemplate [FmtArg.str "ZTSCredentialProviderConfig.IAMRole"]
    else if c.RenewThresholdInSeconds ≤ 0 then
      Errorf "invalid field: \"ZTSCredentialProviderConfig.RenewThreshold\" must be greater than 0, got %v"
        [FmtArg.int c.RenewThresholdInSeconds]
    else none

def IAMAuthConfig.validate (urlParse : String → Option String)
    (c : IAMAuthConfig) : Option String :=
  if c.Region = "" then
    Errorf emptyFieldErrTemplate [FmtArg.str "IAMAuthConfig.Region"]
  else c.CredentialsProvider.validate urlParse

def Config.validate (urlParse : String → Option String) (c : Config) : Option String :=
  if c.Host = "" then
    Errorf emptyFieldErrTemplate [FmtArg.str "Config.Host"]
  else if c.Port ≤ 0 then
    Errorf "invalid field: \"Config.Port\" must be larger than zero, got %v" [FmtArg.int c.Port]
  else if c.User = "" then
    Errorf emptyFieldErrTemplate [FmtArg.str "Config.User"]
  else if c.SSLRootCert = "" ∧ (c.SSLMode = "verify-ca" ∨ c.SSLMode = "verify-full") then
    Errorf "invalid field: Config.SSLRootCert must not be empty because SSLMode is %s"
      [FmtArg.str c.SSLMode]
  else if c.Password ≠ "" then none
  -- The password is empty, so IAMAuth must be valid.
  else c.IAMAuth.validate urlParse

/-- `New`, with `convert ci c0` standing for
`config.ConvertGenericConfigToSpecificType(ci, &c)` run on the zero `Config`:
it yields the filled `Config` and the conversion error. -/
def New {G : Type} (convert : G → Config → Config × Option String)
    (urlParse : String → Option String) (ci : G) : Option Config × Option String :=
  let c : Config := {}
  match convert ci c with
  | (_, some err) =>
    (none, Errorf "failed to convert the generic storage config to a rds config, err: %v"
      [FmtArg.str err])
  | (c, none) =>
    let c := c.populateDefaultValues
    match c.validate urlParse with
    | some err => (none, some err)
    | none => (some c, none)

/-! ## `rds/connector.go` -/

/-- The refresh interval, `10 * time.Minute`, in nanoseconds. -/
def refreshAuthTokenInterval : Int := 10 * 60000000000

def errMsgCreateCredentials : String := "failed to create AWS credentials"
def errMsgRefreshAuthToken : String := "failed to refresh auth token"
def errMsgSetupIAMAuth : String := "failed to set up IAM auth"
def logsOptInIAMAuth : String := "Opt in IAM Authentication..."

/-- The connector. `Drv` is the type of `driver.Driver` values. The lock
`dsnLock` guards `dsn` against concurrent access and has no sequential content. -/
structure connector (Drv : Type) where
  host : String := ""
  port : Int := 0
  dbName : String := ""
  user : String := ""
  password : String := ""
  sslMode : String := ""
  sslRootCert : String := ""
  driver : Drv
  dsn : String := ""
  deriving DecidableEq, Repr

/-- What the connector does to the outside, in program order. `Creds` is the
type of `*credentials.Credentials` values. -/
inductive ConnEvent (Creds Drv : Type) where
  /-- A line written to the logger. -/
  | log (line : String)
  /-- A call `cc.Create(conf)`. -/
  | credentialsCreate (conf : IAMAuthConfig)
  /-- A call `rdsutils.BuildAuthToken(endpoint, region, user, creds)`. -/
  | buildAuthToken (endpoint region user : String) (creds : Creds)
  /-- The statement `go c.refreshAuthTokenPeriodically(ctx, creds, region, interval, logger)`. -/
  | goRefreshAuthTokenPeriodically (creds : Creds) (region : String) (interval : Int)
  /-- A call `driver.Open(dsn)`. -/
  | driverOpen (drv : Drv) (dsn : String)
  deriving DecidableEq, Repr

section Connector

variable {Creds Drv Conn : Type}

def connector.assembleDSN (c : connector Drv) : String :=
  let dsn := Sprintf "host=%s port=%d dbname=%s user=%s password=%s sslmode=%s"
    [FmtArg.str c.host, FmtArg.int c.port, FmtArg.str c.dbName, FmtArg.str c.user,
      FmtArg.str c.password, FmtArg.str c.sslMode]
  if c.sslRootCert ≠ "" then
    Sprintf "%s sslrootcert=%s" [FmtArg.str dsn, FmtArg.str c.sslRootCert]
  else dsn

def connector.updateDSN (c : connector Drv) : connector Drv :=
  { c with dsn := c.assembleDSN }

def connector.readDSN (c : connector Drv) : String := c.dsn

/-- Only `refreshAuthToken` invokes it. -/
def connector.updatePassword (c : connector Drv) (password : String) : connector Drv :=
  ({ c with password := password }).updateDSN

/-- `build endpoint region user creds` is the result pair of this call of
`rdsutils.BuildAuthToken`. -/
def connector.refreshAuthToken (build : String → String → String → Creds → String × Option String)
    (c : connector Drv) (creds : Creds) (region : String) :
    connector Drv × Option String × List (ConnEvent Creds Drv) :=
  let endpoint := Sprintf "%s:%d" [FmtArg.str c.host, FmtArg.int c.port]
  match build endpoint region c.user creds with
  | (_, some err) => (c, some err, [ConnEvent.buildAuthToken endpoint region c.user creds])
  | (authToken, none) =>
    (c.updatePassword authToken, none, [ConnEvent.buildAuthToken endpoint region c.user creds])

/-- `cc conf` is the result pair of `cc.Create(conf)`. -/
def connector.setupIAMAuth (cc : IAMAuthConfig → Creds × Option String)
    (build : String → String → String → Creds → String × Option String)
    (c : connector Drv) (conf : IAMAuthConfig) :
    connector Drv × Option String × List (ConnEvent Creds Drv) :=
  match cc conf with
  | (_, some err) =>
    (c, Errorf "%s, err: %v" [FmtArg.str errMsgCreateCredentials, FmtArg.str err],
      [ConnEvent.credentialsCreate conf])
  | (creds, none) =>
    match c.refreshAuthToken build creds conf.Region with
    | (c1, some err, evs) =>
      (c1, Errorf "%s, err: %v" [FmtArg.str errMsgRefreshAuthToken, FmtArg.str err],
        ConnEvent.credentialsCreate conf :: evs)
    | (c1, none, evs) =>
      (c1, none, ConnEvent.credentialsCreate conf :: evs ++
        [ConnEvent.goRefreshAuthTokenPeriodically creds conf.Region refreshAuthTokenInterval])

/-- `newConnector` of `rds/connector.go`; `cc = none` is the nil credentials
creator. -/
def newConnector (conf : Config) (driver : Drv)
    (cc : Option (IAMAuthConfig → Creds × Option String))
    (build : String → String → String → Creds → String × Option String) :
    Option (connector Drv) × Option String × List (ConnEvent Creds Drv) :=
  let c : connector Drv :=
    { host := conf.Host, port := conf.Port, dbName := conf.DBName, user := conf.User,
      password := conf.Password, sslMode := conf.SSLMode, sslRootCert := conf.SSLRootCert,
      driver := driver }
  match cc with
  | none => (some c.updateDSN, none, [])
  | some create =>
    match c.setupIAMAuth create build conf.IAMAuth with
    | (_, some err, evs) =>
      (none, Errorf "%s, err: %v" [FmtArg.str errMsgSetupIAMAuth, FmtArg.str err],
        ConnEvent.log logsOptInIAMAuth :: evs)
    | (c1, none, evs) => (some c1, none, ConnEvent.log logsOptInIAMAuth :: evs)

/-- `Connect`; `drvOpen drv dsn` is the result pair of `drv.Open(dsn)`. -/
def connector.Connect (drvOpen : Drv → String → Conn × Option String) (c : connector Drv) :
    (Conn × Option String) × List (ConnEvent Creds Drv) :=
  let dsn := c.readDSN
  (drvOpen c.driver dsn, [ConnEvent.driverOpen c.driver dsn])

def connector.Driver (c : connector Drv) : Drv := c.driver

/-- What one evaluation of the `select` statement finds: whether `ctx.Done()`
is ready (the context has been cancelled), whether `ticker.C` holds a tick, and
which of the two cases the runtime picks when both are ready. -/
structure SelectReady where
  done : Bool
  tick : Bool
  pickTick : Bool
  deriving DecidableEq, Repr

/-- The loop of `refreshAuthTokenPeriodically`, run on the successive
evaluations of its `select`; `build n` is the `n`-th call of
`rdsutils.BuildAuthToken` the loop makes. The ticker of the given interval is
present through the field `tick` of each evaluation. A `select` with several
ready cases runs one of them, the one the runtime picks. The result is the
connector, whether the function has returned (`false`: it is still blocked in
the `select`), and the events. When neither case is ready the goroutine stays
blocked until the next evaluation. -/
def connector.refreshAuthTokenPeriodically
    (build : Nat → String → String → String → Creds → String × Option String)
    (creds : Creds) (region : String) :
    Nat → connector Drv → List SelectReady → connector Drv × Bool × List (ConnEvent Creds Drv)
  | _, c, [] => (c, false, [])
  | n, c, r :: rest =>
    if r.done && !(r.tick && r.pickTick) then (c, true, [])
    else if r.tick then
      match c.refreshAuthToken (build n) creds region with
      | (c1, some err, evs) =>
        match connector.refreshAuthTokenPeriodically build creds region (n + 1) c1 rest with
        | (c2, returned, evs2) =>
          (c2, returned, ConnEvent.log "try to refresh auth token" :: evs ++
            ConnEvent.log (Sprintf "%s, err: %v" [FmtArg.str errMsgRefreshAuthToken, FmtArg.str err])
              :: evs2)
      | (c1, none, evs) =>
        match connector.refreshAuthTokenPeriodically build creds region (n + 1) c1 rest with
        | (c2, returned, evs2) =>
          (c2, returned, ConnEvent.log "try to refresh auth token" :: evs ++ evs2)
    else connector.refreshAuthTokenPeriodically build creds region n c rest

/-- An operation on a connector, for runs of several operations: the build
function of a `refreshAuthToken` is the result of that call of
`rdsutils.BuildAuthToken`. -/
inductive ConnOp (Creds : Type) where
  | updatePassword (password : String)
  | refreshAuthToken (build : String → String → String → Creds → String × Option String)
      (creds : Creds) (region : String)
  | readDSN
  | Connect

/-- The connector after one operation. `readDSN` and `Connect` only read it. -/
def connector.step (c : connector Drv) : ConnOp Creds → connector Drv
  | ConnOp.updatePassword password => c.updatePassword password
  | ConnOp.refreshAuthToken build creds region => (c.refreshAuthToken build creds region).1
  | ConnOp.readDSN => c
  | ConnOp.Connect => c

/-- The connector after a sequence of operations. -/
def connector.run (c : connector Drv) (ops : List (ConnOp Creds)) : connector Drv :=
  ops.foldl connector.step c

end Connector

/-! ## `go/v1beta1/storage/storage.go` -/

def errMsgInitConfig : String := "failed to initialize config"
def errMsgInitConnector : String := "failed to initialize connector"
def errMsgInitStorage : String := "failed to initialize store"

/-- The value of a signed 64-bit integer computation: the result modulo `2^64`,
in the range `-2^63 .. 2^63 - 1`. -/
def wrapInt64 (x : Int) : Int := (x + 2 ^ 63) % 2 ^ 64 - 2 ^ 63

/-- The constant `time.Second`, in nanoseconds. -/
def Second : Int := 1000000000

/-- The expression `time.Duration(n) * time.Second`: a conversion to `int64` and
an `int64` multiplication. -/
def durationOfSeconds (n : Int) : Int := wrapInt64 (wrapInt64 n * Second)

/-- What `Provide` and `ProvideRW` do to the outside, in program order. `S` is
the type of the values of the interface `Storage`. -/
inductive ProvideEvent (Creds Drv S : Type) where
  /-- An event of the construction of a connector. -/
  | connector (e : ConnEvent Creds Drv)
  /-- A call `storageCreator.Create(connector, paginationKey)`. -/
  | storageCreate (c : GrafeasRds.connector Drv) (paginationKey : String)
  /-- A call `storageCreator.CreateRW(readerConnector, writerConnector, paginationKey)`. -/
  | storageCreateRW (readerConnector writerConnector : GrafeasRds.connector Drv)
      (paginationKey : String)
  | SetMaxOpenConns (mgr : S) (n : Int)
  | SetMaxIdleConns (mgr : S) (n : Int)
  | SetConnMaxLifetime (mgr : S) (d : Int)
  | SetConnMaxIdleTime (mgr : S) (d : Int)
  deriving DecidableEq, Repr

/-- The interface `StorageCreator`: the result pairs of its two methods. -/
structure StorageCreator (Drv S : Type) where
  Create : connector Drv → String → S × Option String
  CreateRW : connector Drv → connector Drv → String → S × Option String

/-- The provider. `credentialsCreator = none` is the nil interface; otherwise
`create n conf` is the result pair of the `n`-th call of `Create(conf)`. -/
structure GrafeasStorageProvider (Creds Drv S : Type) where
  drv : Drv
  credentialsCreator : Option (Nat → IAMAuthConfig → Creds × Option String)
  storageCreator : StorageCreator Drv S

/-- The struct `storage.Storage` of grafeas. -/
structure Storage (S : Type) where
  Ps : S
  Gs : S
  deriving DecidableEq, Repr

/-- The library functions the provider reaches: the conversion of the generic
configuration, `url.Parse`, and `rdsutils.BuildAuthToken`, whose `n`-th call is
`buildAuthToken n`. -/
structure Lib (G Creds : Type) where
  convert : G → Config → Config × Option String
  urlParse : String → Option String
  buildAuthToken : Nat → String → String → String → Creds → String × Option String

section Provider

variable {G Creds Drv S : Type}

def NewGrafeasStorageProvider (drv : Drv)
    (credentialsCreator : Option (Nat → IAMAuthConfig → Creds × Option String))
    (storageCreator : StorageCreator Drv S) : GrafeasStorageProvider Creds Drv S :=
  { drv := drv, credentialsCreator := credentialsCreator, storageCreator := storageCreator }

/-- Modelled from the spec: the `newConnector` of `go/v1beta1/storage`, which
`Provide` and `ProvideRW` call with a sixth argument, the host override, is not
among the sources. It copies the static fields from the config, substituting
the override for the host, and the override is a no-op on an empty string;
everything else is `newConnector` of `rds/connector.go`. -/
def newConnectorOverride (conf : Config) (driver : Drv)
    (cc : Option (IAMAuthConfig → Creds × Option String))
    (build : String → String → String → Creds → String × Option String)
    (overrideHost : String) :
    Option (connector Drv) × Option String × List (ConnEvent Creds Drv) :=
  newConnector (if overrideHost = "" then conf else { conf with Host := overrideHost })
    driver cc build

def setConnPoolParams (mgr : S) (conf : ConnPoolConfig) : List (ProvideEvent Creds Drv S) :=
  [ProvideEvent.SetMaxOpenConns mgr conf.MaxOpenConns,
   ProvideEvent.SetMaxIdleConns mgr conf.MaxIdleConns,
   ProvideEvent.SetConnMaxLifetime mgr (durationOfSeconds conf.ConnMaxLifetimeInSeconds),
   ProvideEvent.SetConnMaxIdleTime mgr (durationOfSeconds conf.ConnMaxIdleTimeInSeconds)]

/-- `Provide`. A nil result without an error does not arise from `New` or from
`newConnector`; the dereference that would follow is rendered as a result with
neither storage nor error. -/
def GrafeasStorageProvider.Provide (lib : Lib G Creds) (p : GrafeasStorageProvider Creds Drv S)
    (confi : G) : Option (Storage S) × Option String × List (ProvideEvent Creds Drv S) :=
  match New lib.convert lib.urlParse confi with
  | (_, some err) =>
    (none, Errorf "%s, err: %v" [FmtArg.str errMsgInitConfig, FmtArg.str err], [])
  | (none, none) => (none, none, [])
  | (some conf, none) =>
    match newConnectorOverride conf p.drv (p.credentialsCreator.map fun create => create 0)
        (lib.buildAuthToken 0) "" with
    | (_, some err, evs) =>
      (none, Errorf "%s, err: %v" [FmtArg.str errMsgInitConnector, FmtArg.str err],
        evs.map ProvideEvent.connector)
    | (none, none, evs) => (none, none, evs.map ProvideEvent.connector)
    | (some connector, none, evs) =>
      match p.storageCreator.Create connector conf.PaginationKey with
      | (_, some err) =>
        (none, Errorf "%s, err: %v" [FmtArg.str errMsgInitStorage, FmtArg.str err],
          evs.map ProvideEvent.connector ++
            [ProvideEvent.storageCreate connector conf.PaginationKey])
      | (rdsStorage, none) =>
        (some { Ps := rdsStorage, Gs := rdsStorage }, none,
          evs.map ProvideEvent.connector ++
            ProvideEvent.storageCreate connector conf.PaginationKey ::
              setConnPoolParams rdsStorage conf.ConnPool)

/-- `ProvideRW`: the writer connector is built first (the first calls of the
credentials creator and of `rdsutils.BuildAuthToken`), then the reader connector
(their second calls). -/
def GrafeasStorageProvider.ProvideRW (lib : Lib G Creds) (p : GrafeasStorageProvider Creds Drv S)
    (confi : G) : Option (Storage S) × Option String × List (ProvideEvent Creds Drv S) :=
  match New lib.convert lib.urlParse confi with
  | (_, some err) =>
    (none, Errorf "%s, err: %v" [FmtArg.str errMsgInitConfig, FmtArg.str err], [])
  | (none, none) => (none, none, [])
  | (some conf, none) =>
    match newConnectorOverride conf p.drv (p.credentialsCreator.map fun create => create 0)
        (lib.buildAuthToken 0) "" with
    | (_, some err, evs) =>
      (none, Errorf "%s, err: %v" [FmtArg.str errMsgInitConnector, FmtArg.str err],
        evs.map ProvideEvent.connector)
    | (none, none, evs) => (none, none, evs.map ProvideEvent.connector)
    | (some writerConnector, none, evs) =>
      match newConnectorOverride conf p.drv (p.credentialsCreator.map fun create => create 1)
          (lib.buildAuthToken 1) conf.Reader with
      | (_, some err, evs2) =>
        (none, Errorf "%s, err: %v" [FmtArg.str errMsgInitConnector, FmtArg.str err],
          (evs ++ evs2).map ProvideEvent.connector)
      | (none, none, evs2) => (none, none, (evs ++ evs2).map ProvideEvent.connector)
      | (some readerConnector, none, evs2) =>
        match p.storageCreator.CreateRW readerConnector writerConnector conf.PaginationKey with
        | (_, some err) =>
          (none, Errorf "%s, err: %v" [FmtArg.str errMsgInitStorage, FmtArg.str err],
            (evs ++ evs2).map ProvideEvent.connector ++
              [ProvideEvent.storageCreateRW readerConnector writerConnector conf.PaginationKey])
        | (rdsStorage, none) =>
          (some { Ps := rdsStorage, Gs := rdsStorage }, none,
            (evs ++ evs2).map ProvideEvent.connector ++
              ProvideEvent.storageCreateRW readerConnector writerConnector conf.PaginationKey ::
                setConnPoolParams rdsStorage conf.ConnPool)

end Provider

/-! ## The validation rules as the specification lists them -/

/-- The text of the error `EmptyField` for the named field. -/
def EmptyField (field : String) : String :=
  "invalid field: \"" ++ field ++ "\" must not be empty"

/-- The nine validation rules in the order of the specification: when the rule
is violated, and the text of its error. Rules 5 to 9 apply only when the
password is empty. -/
def validationRules (urlParse : String → Option String) :
    List ((Config → Bool) × (Config → String)) :=
  [(fun c => decide (c.Host = ""),
      fun _ => "invalid field: \"Config.Host\" must not be empty"),
   (fun c => decide (c.Port ≤ 0),
      fun c => "invalid field: \"Config.Port\" must be larger than zero, got "
        ++ String.mk (fmtInt c.Port)),
   (fun c => decide (c.User = ""),
      fun _ => "invalid field: \"Config.User\" must not be empty"),
   (fun c => decide (c.SSLRootCert = "" ∧ (c.SSLMode = "verify-ca" ∨ c.SSLMode = "verify-full")),
      fun c => "invalid field: Config.SSLRootCert must not be empty because SSLMode is "
        ++ c.SSLMode),
   (fun c => decide (c.Password = "" ∧ c.IAMAuth.Region = ""),
      fun _ => EmptyField "IAMAuthConfig.Region"),
   (fun c => decide (c.Password = "") &&
        (urlParse c.IAMAuth.CredentialsProvider.APIEndpoint).isSome,
      fun c => "invalid field: \"ZTSCredentialProviderConfig.APIEndpoint\" should be a valid url, err: "
        ++ (urlParse c.IAMAuth.CredentialsProvider.APIEndpoint).getD ""),
   (fun c => decide (c.Password = "" ∧ c.IAMAuth.CredentialsProvider.AthenzDomain = ""),
      fun _ => EmptyField "ZTSCredentialProviderConfig.AthenzDomain"),
   (fun c => decide (c.Password = "" ∧ c.IAMAuth.CredentialsProvider.IAMRole = ""),
      fun _ => EmptyField "ZTSCredentialProviderConfig.IAMRole"),
   (fun c => decide (c.Password = "" ∧ c.IAMAuth.CredentialsProvider.RenewThresholdInSeconds ≤ 0),
      fun c => "invalid field: \"ZTSCredentialProviderConfig.RenewThreshold\" must be greater than 0, got "
        ++ String.mk (fmtInt c.IAMAuth.CredentialsProvider.RenewThresholdInSeconds))]

/-- The error of the first violated rule, `none` when no rule is violated. -/
def firstViolation (rules : List ((Config → Bool) × (Config → String))) (c : Config) :
    Option String :=
  match rules.find? (fun r => r.1 c) with
  | some r => some (r.2 c)
  | none => none

/-! ## Concrete inputs -/

/-- The configuration of the test file `valid.yaml`, before defaults. -/
def validYaml : Config :=
  { Host := "some-host.rds.amazonaws.com", User := "grafeas_rw",
    SSLRootCert := "/opt/rds-ca-2019-root.pem", PaginationKey := "some_random_key",
    ConnPool := { MaxOpenConns := 50, MaxIdleConns := 25, ConnMaxLifetimeInSeconds := 1800,
                  ConnMaxIdleTimeInSeconds := 900 },
    IAMAuth := { Region := "us-west-2",
                 CredentialsProvider :=
                   { APIEndpoint := "https://zts.athenz.company.com:4443/zts/v1",
                     AthenzDomain := "grafeas", IAMRole := "some-role.grafeas" } } }

/-- The configuration of `valid.yaml` with defaults applied and a password added:
its password is non-empty and its IAMAuth block is the valid one of the test. -/
def passwordAndIAM : Config :=
  { validYaml.populateDefaultValues with Password := "dummy-password-for-unit-tests-only" }

/-- A configuration with a password and an empty IAMAuth block. -/
def passwordOnly : Config :=
  { Host := "some-host.rds.amazonaws.com", Port := 5432, DBName := "grafeas",
    User := "grafeas_rw", Password := "dummy-password-for-unit-tests-only",
    SSLMode := "verify-full", SSLRootCert := "/opt/rds-ca-2019-root.pem" }

/-- A stand-in for `url.Parse` that accepts every string. -/
def parseAny : String → Option String := fun _ => none

/-- The connector of the test `TestAssembleDSN`, with the given root certificate. -/
def testConnector (sslRootCert : String) : connector Unit :=
  { host := "localhost", port := 5432, dbName := "grafeas", user := "grafeas_rw",
    password := "dummy-password-for-unit-tests-only", sslMode := "verify-full",
    sslRootCert := sslRootCert, driver := () }

/-- The number a list of decimal digit characters, least significant first,
stands for (the inverse of `digitsRev`). -/
def valueOfDigitsRev : List Char → Nat
  | [] => 0
  | ch :: rest => (ch.toNat - 48) + 10 * valueOfDigitsRev rest

/-- A connector whose password holds a space. -/
def spacedPassword : connector Unit :=
  { host := "localhost", port := 5432, dbName := "grafeas", user := "grafeas_rw",
    password := "pw sslmode=disable", sslMode := "verify-full", driver := () }

/-- A connector with another password and another TLS mode than `spacedPassword`. -/
def spacedSSLMode : connector Unit :=
  { host := "localhost", port := 5432, dbName := "grafeas", user := "grafeas_rw",
    password := "pw", sslMode := "disable sslmode=verify-full", driver := () }

/-- A credentials creator that succeeds, as the mock of the tests set to return
`credentials.NewStaticCredentials("a", "b", "c")`. Credentials are named by a string. -/
def staticCreator : IAMAuthConfig → String × Option String :=
  fun _ => ("static a b c", none)

/-- A credentials creator that fails, as the mock of `TestSetupIAMAuth`. -/
def failingCreator : IAMAuthConfig → String × Option String :=
  fun _ => ("", some "some error")

/-- A stand-in for `rdsutils.BuildAuthToken` on which every derivation succeeds;
the token names the endpoint, the region and the user. -/
def tokenOf : String → String → String → String → String × Option String :=
  fun endpoint region user _ => (endpoint ++ "?region=" ++ region ++ "&user=" ++ user, none)

/-- A stand-in for `rdsutils.BuildAuthToken` on which every derivation fails, as
with `credentials.AnonymousCredentials`. -/
def noToken : String → String → String → String → String × Option String :=
  fun _ _ _ _ => ("", some "empty secret key")

/-- A stand-in for `rdsutils.BuildAuthToken` whose token changes from call to
call, as the test `TestRefreshAuthTokenPeriodically` expects of the real one. -/
def tokenAt : Nat → String → String → String → String → String × Option String :=
  fun n endpoint _ _ _ => (endpoint ++ "#" ++ String.mk (fmtUint n), none)

/-- A select at which only a tick is ready. -/
def onlyTick : SelectReady := { done := false, tick := true, pickTick := false }

/-- A select at which only the cancellation is ready. -/
def onlyDone : SelectReady := { done := true, tick := false, pickTick := false }

/-- A select at which the cancellation and a tick are both ready and the runtime
picks the tick. -/
def bothPickTick : SelectReady := { done := true, tick := true, pickTick := true }

/-- A driver whose `Open` returns a connection named after the DSN. -/
def echoOpen : Unit → String → String × Option String :=
  fun _ dsn => ("conn to " ++ dsn, none)

/-- A driver whose `Open` fails. -/
def refuseOpen : Unit → String → String × Option String :=
  fun _ _ => ("", some "connection refused")

/-- The library of the provider tests: the generic configuration converts to the
given `Config`, every endpoint parses, every derivation succeeds. -/
def testLib (conf : Config) : Lib Unit String :=
  { convert := fun _ _ => (conf, none), urlParse := parseAny, buildAuthToken := tokenAt }

/-- The `validConf` of `TestStorageProviderProvide`. -/
def validConf : Config :=
  { Host := "some-host.rds.amazonaws.com", User := "grafeas_rw",
    Password := "dummy-password-for-unit-tests-only",
    SSLRootCert := "/opt/rds-ca-2019-root.pem",
    ConnPool := { MaxOpenConns := 1, MaxIdleConns := 2, ConnMaxLifetimeInSeconds := 3,
                  ConnMaxIdleTimeInSeconds := 4 } }

/-- A storage creator that returns the storage named `store`. -/
def storeCreator : StorageCreator Unit String :=
  { Create := fun _ _ => ("store", none), CreateRW := fun _ _ _ => ("store", none) }

/-- A storage creator that fails, as in the case `invalid store` of the test. -/
def failingStoreCreator : StorageCreator Unit String :=
  { Create := fun _ _ => ("", some "random error"),
    CreateRW := fun _ _ _ => ("", some "random error") }

/-- The connector `newConnector` builds from `valid.yaml` once the given token
is its password. -/
def iamConnector (token : String) : connector Unit :=
  { host := "some-host.rds.amazonaws.com", port := 5432, dbName := "grafeas",
    user := "grafeas_rw", password := token, sslMode := "verify-full",
    sslRootCert := "/opt/rds-ca-2019-root.pem", driver := (),
    dsn := "host=some-host.rds.amazonaws.com port=5432 dbname=grafeas user=grafeas_rw password="
      ++ token ++ " sslmode=verify-full sslrootcert=/opt/rds-ca-2019-root.pem" }

/-- A stand-in for `rdsutils.BuildAuthToken` whose token does not spell the
region out (the real one writes it URL-escaped into the token). -/
def opaqueToken : String → String → String → String → String × Option String :=
  fun endpoint _ user _ => (endpoint ++ "?user=" ++ user, none)

/-! # Theorems -/


/-! ## Evaluation of the format strings of the program -/

theorem Sprintf_emptyField (field : String) :
    Sprintf emptyFieldErrTemplate [FmtArg.str field]
      = "invalid field: \"" ++ field ++ "\" must not be empty" := by
  apply String.ext
  simp [Sprintf, sprintfAux, emptyFieldErrTemplate, formatVerb, FmtArg.accepts, FmtArg.value]

theorem Sprintf_port (n : Int) :
    Sprintf "invalid field: \"Config.Port\" must be larger than zero, got %v" [FmtArg.int n]
      = "invalid field: \"Config.Port\" must be larger than zero, got " ++ String.mk (fmtInt n) := by
  apply String.ext
  simp [Sprintf, sprintfAux, formatVerb, FmtArg.accepts, FmtArg.value]

theorem Sprintf_sslRootCert (mode : String) :
    Sprintf "invalid field: Config.SSLRootCert must not be empty because SSLMode is %s"
        [FmtArg.str mode]
      = "invalid field: Config.SSLRootCert must not be empty because SSLMode is " ++ mode := by
  apply String.ext
  simp [Sprintf, sprintfAux, formatVerb, FmtArg.accepts, FmtArg.value]

theorem Sprintf_apiEndpoint (err : String) :
    Sprintf "invalid field: \"ZTSCredentialProviderConfig.APIEndpoint\" should be a valid url, err: %v"
        [FmtArg.str err]
      = "invalid field: \"ZTSCredentialProviderConfig.APIEndpoint\" should be a valid url, err: "
        ++ err := by
  apply String.ext
  simp [Sprintf, sprintfAux, formatVerb, FmtArg.accepts, FmtArg.value]

theorem Sprintf_renewThreshold (n : Int) :
    Sprintf "invalid field: \"ZTSCredentialProviderConfig.RenewThreshold\" must be greater than 0, got %v"
        [FmtArg.int n]
      = "invalid field: \"ZTSCredentialProviderConfig.RenewThreshold\" must be greater than 0, got "
        ++ String.mk (fmtInt n) := by
  apply String.ext
  simp [Sprintf, sprintfAux, formatVerb, FmtArg.accepts, FmtArg.value]

/-- Two operands joined by `, err: `, the shape of every wrapped error. -/
theorem Sprintf_wrap (msg err : String) :
    Sprintf "%s, err: %v" [FmtArg.str msg, FmtArg.str err] = msg ++ ", err: " ++ err := by
  apply String.ext
  simp [Sprintf, sprintfAux, formatVerb, FmtArg.accepts, FmtArg.value]

/-! ## Configuration -/

theorem ZTS_validate_eq (urlParse : String → Option String) (c : ZTSCredentialProviderConfig) :
    c.validate urlParse =
      match urlParse c.APIEndpoint with
      | some err =>
        some ("invalid field: \"ZTSCredentialProviderConfig.APIEndpoint\" should be a valid url, err: "
          ++ err)
      | none =>
        if c.AthenzDomain = "" then some (EmptyField "ZTSCredentialProviderConfig.AthenzDomain")
        else if c.IAMRole = "" then some (EmptyField "ZTSCredentialProviderConfig.IAMRole")
        else if c.RenewThresholdInSeconds ≤ 0 then
          some ("invalid field: \"ZTSCredentialProviderConfig.RenewThreshold\" must be greater than 0, got "
            ++ String.mk (fmtInt c.RenewThresholdInSeconds))
        else none := by
  unfold ZTSCredentialProviderConfig.validate
  simp only [Errorf, Sprintf_emptyField, Sprintf_apiEndpoint, Sprintf_renewThreshold, EmptyField]

theorem IAMAuth_validate_eq (urlParse : String → Option String) (c : IAMAuthConfig) :
    c.validate urlParse =
      if c.Region = "" then some (EmptyField "IAMAuthConfig.Region")
      else c.CredentialsProvider.validate urlParse := by
  unfold IAMAuthConfig.validate
  simp only [Errorf, Sprintf_emptyField, EmptyField]

theorem Config_validate_eq (urlParse : String → Option String) (c : Config) :
    c.validate urlParse =
      if c.Host = "" then some "invalid field: \"Config.Host\" must not be empty"
      else if c.Port ≤ 0 then
        some ("invalid field: \"Config.Port\" must be larger than zero, got "
          ++ String.mk (fmtInt c.Port))
      else if c.User = "" then some "invalid field: \"Config.User\" must not be empty"
      else if c.SSLRootCert = "" ∧ (c.SSLMode = "verify-ca" ∨ c.SSLMode = "verify-full") then
        some ("invalid field: Config.SSLRootCert must not be empty because SSLMode is "
          ++ c.SSLMode)
      else if c.Password ≠ "" then none
      else c.IAMAuth.validate urlParse := by
  unfold Config.validate
  simp only [Errorf, Sprintf_emptyField, Sprintf_port, Sprintf_sslRootCert]
  rfl

/-- C1: `Config.validate` returns the error of the first violated rule of the
nine rules in their fixed order, and `nil` exactly when no rule is violated. -/
theorem validate_first_violated_rule (urlParse : String → Option String) (c : Config) :
    c.validate urlParse = firstViolation (validationRules urlParse) c ∧
    (c.validate urlParse = none ↔ ∀ r ∈ validationRules urlParse, r.1 c = false) := by
  have key : c.validate urlParse = firstViolation (validationRules urlParse) c := by
    rw [Config_validate_eq, IAMAuth_validate_eq, ZTS_validate_eq]
    unfold firstViolation validationRules
    by_cases h1 : c.Host = ""
    · simp [List.find?, h1]
    by_cases h2 : c.Port ≤ 0
    · simp [List.find?, h1, h2]
    by_cases h3 : c.User = ""
    · simp [List.find?, h1, h2, h3]
    by_cases h4 : c.SSLRootCert = "" ∧ (c.SSLMode = "verify-ca" ∨ c.SSLMode = "verify-full")
    · simp [List.find?, h1, h2, h3, h4]
    by_cases h5 : c.Password = ""
    swap
    · simp [List.find?, h1, h2, h3, h4, h5]
    by_cases h6 : c.IAMAuth.Region = ""
    · simp [List.find?, h1, h2, h3, h4, h5, h6]
    cases h7 : urlParse c.IAMAuth.CredentialsProvider.APIEndpoint with
    | some err => simp [List.find?, h1, h2, h3, h4, h5, h6, h7]
    | none =>
      by_cases h8 : c.IAMAuth.CredentialsProvider.AthenzDomain = ""
      · simp [List.find?, h1, h2, h3, h4, h5, h6, h7, h8]
      by_cases h9 : c.IAMAuth.CredentialsProvider.IAMRole = ""
      · simp [List.find?, h1, h2, h3, h4, h5, h6, h7, h8, h9]
      by_cases h10 : c.IAMAuth.CredentialsProvider.RenewThresholdInSeconds ≤ 0
      · simp [List.find?, h1, h2, h3, h4, h5, h6, h7, h8, h9, h10]
      · simp [List.find?, h1, h2, h3, h4, h5, h6, h7, h8, h9, h10]
  refine ⟨key, ?_⟩
  rw [key]
  unfold firstViolation
  cases hf : (validationRules urlParse).find? (fun r => r.1 c) with
  | none =>
    simp only [true_iff]
    intro r hr
    have := List.find?_eq_none.1 hf r hr
    simpa using this
  | some r =>
    simp only [false_iff, reduceCtorEq]
    intro hall
    have hmem := List.mem_of_find?_eq_some hf
    have hsat := List.find?_some hf
    rw [hall r hmem] at hsat
    exact Bool.noConfusion hsat

/-- C2: `populateDefaultValues` sets Port to 5432, DBName to "grafeas", SSLMode
to "verify-full" and the renewal threshold to 600 exactly when the field was
zero or empty (a field changes if and only if it was), and leaves every other
field, and every non-zero value of these four, as it was. -/
theorem populateDefaultValues_exact (c : Config) :
    (c.populateDefaultValues.Port = if c.Port = 0 then 5432 else c.Port) ∧
    (c.populateDefaultValues.DBName = if c.DBName = "" then "grafeas" else c.DBName) ∧
    (c.populateDefaultValues.SSLMode = if c.SSLMode = "" then "verify-full" else c.SSLMode) ∧
    (c.populateDefaultValues.IAMAuth.CredentialsProvider.RenewThresholdInSeconds =
      if c.IAMAuth.CredentialsProvider.RenewThresholdInSeconds = 0 then 600
      else c.IAMAuth.CredentialsProvider.RenewThresholdInSeconds) ∧
    (c.populateDefaultValues.Port ≠ c.Port ↔ c.Port = 0) ∧
    (c.populateDefaultValues.DBName ≠ c.DBName ↔ c.DBName = "") ∧
    (c.populateDefaultValues.SSLMode ≠ c.SSLMode ↔ c.SSLMode = "") ∧
    (c.populateDefaultValues.IAMAuth.CredentialsProvider.RenewThresholdInSeconds ≠
        c.IAMAuth.CredentialsProvider.RenewThresholdInSeconds ↔
      c.IAMAuth.CredentialsProvider.RenewThresholdInSeconds = 0) ∧
    c.populateDefaultValues.Host = c.Host ∧
    c.populateDefaultValues.User = c.User ∧
    c.populateDefaultValues.Password = c.Password ∧
    c.populateDefaultValues.SSLRootCert = c.SSLRootCert ∧
    c.populateDefaultValues.PaginationKey = c.PaginationKey ∧
    c.populateDefaultValues.ConnPool = c.ConnPool ∧
    c.populateDefaultValues.Reader = c.Reader ∧
    c.populateDefaultValues.IAMAuth.Region = c.IAMAuth.Region ∧
    c.populateDefaultValues.IAMAuth.CredentialsProvider.APIEndpoint =
      c.IAMAuth.CredentialsProvider.APIEndpoint ∧
    c.populateDefaultValues.IAMAuth.CredentialsProvider.AthenzDomain =
      c.IAMAuth.CredentialsProvider.AthenzDomain ∧
    c.populateDefaultValues.IAMAuth.CredentialsProvider.IAMRole =
      c.IAMAuth.CredentialsProvider.IAMRole ∧
    c.populateDefaultValues.IAMAuth.CredentialsProvider.ExternalID =
      c.IAMAuth.CredentialsProvider.ExternalID := by
  unfold Config.populateDefaultValues IAMAuthConfig.populateDefaultValues
    ZTSCredentialProviderConfig.populateDefaultValues
  simp only [defaultPort, defaultDBName, defaultSSLMode, defaultRenewThresholdInSeconds]
  by_cases h1 : c.Port = 0 <;> by_cases h2 : c.DBName = "" <;> by_cases h3 : c.SSLMode = ""
    <;> by_cases h4 : c.IAMAuth.CredentialsProvider.RenewThresholdInSeconds = 0
    <;> simp [h1, h2, h3, h4]

/-- C3: a configuration that passes the four general rules (host, port, user,
TLS root certificate) and has a non-empty password is accepted, whatever its
IAMAuth block holds. -/
theorem validate_password_bypasses_IAM (urlParse : String → Option String) (c : Config)
    (hHost : c.Host ≠ "") (hPort : 0 < c.Port) (hUser : c.User ≠ "")
    (hCert : c.SSLRootCert = "" → c.SSLMode ≠ "verify-ca" ∧ c.SSLMode ≠ "verify-full")
    (hPassword : c.Password ≠ "") :
    c.validate urlParse = none := by
  rw [Config_validate_eq]
  have h4 : ¬ (c.SSLRootCert = "" ∧ (c.SSLMode = "verify-ca" ∨ c.SSLMode = "verify-full")) := by
    rintro ⟨he, hm⟩
    rcases hm with hm | hm
    · exact (hCert he).1 hm
    · exact (hCert he).2 hm
  simp [hHost, not_le.2 hPort, hUser, h4, hPassword]

/-- The configuration `passwordOnly`, whose IAMAuth block is empty (no region, no
domain, no role, threshold 0), is accepted even by a `url.Parse` that rejects
every string. -/
theorem validate_password_bypasses_IAM_witness :
    passwordOnly.IAMAuth = {} ∧
    passwordOnly.validate (fun _ => some "parse error") = none :=
  ⟨by decide,
   validate_password_bypasses_IAM (fun _ => some "parse error") passwordOnly
    (by decide) (by decide) (by decide) (by decide) (by decide)⟩

/-- C4, as stated, fails: `passwordAndIAM` is accepted whatever `url.Parse`
does, its password is non-empty, and its IAMAuth block is valid as soon as
`url.Parse` accepts the endpoint of `valid.yaml`; so "exactly one" does not
hold for all accepted configurations. -/
theorem validate_exactly_one_counterexample :
    (¬ ∀ (urlParse : String → Option String) (c : Config), c.validate urlParse = none →
        ((c.Password ≠ "" ∧ c.IAMAuth.validate urlParse ≠ none) ∨
         (c.Password = "" ∧ c.IAMAuth.validate urlParse = none))) ∧
    passwordAndIAM.Password ≠ "" ∧
    (∀ urlParse : String → Option String, passwordAndIAM.validate urlParse = none) ∧
    (∀ urlParse : String → Option String,
      urlParse "https://zts.athenz.company.com:4443/zts/v1" = none →
      passwordAndIAM.IAMAuth.validate urlParse = none) := by
  have hpw : passwordAndIAM.Password ≠ "" := by decide
  have hacc : ∀ urlParse : String → Option String, passwordAndIAM.validate urlParse = none := by
    intro urlParse
    rw [Config_validate_eq]
    have h1 : passwordAndIAM.Host ≠ "" := by decide
    have h2 : ¬ passwordAndIAM.Port ≤ 0 := by decide
    have h3 : passwordAndIAM.User ≠ "" := by decide
    have h4 : passwordAndIAM.SSLRootCert ≠ "" := by decide
    simp [h1, h2, h3, h4, hpw]
  have hiam : ∀ urlParse : String → Option String,
      urlParse "https://zts.athenz.company.com:4443/zts/v1" = none →
      passwordAndIAM.IAMAuth.validate urlParse = none := by
    intro urlParse hp
    rw [IAMAuth_validate_eq, ZTS_validate_eq]
    have e : passwordAndIAM.IAMAuth.CredentialsProvider.APIEndpoint
        = "https://zts.athenz.company.com:4443/zts/v1" := by decide
    have h1 : passwordAndIAM.IAMAuth.Region ≠ "" := by decide
    have h2 : passwordAndIAM.IAMAuth.CredentialsProvider.AthenzDomain ≠ "" := by decide
    have h3 : passwordAndIAM.IAMAuth.CredentialsProvider.IAMRole ≠ "" := by decide
    have h4 : ¬ passwordAndIAM.IAMAuth.CredentialsProvider.RenewThresholdInSeconds ≤ 0 := by
      decide
    rw [e, hp]
    simp [h1, h2, h3, h4]
  refine ⟨?_, hpw, hacc, hiam⟩
  intro hall
  rcases hall parseAny passwordAndIAM (hacc parseAny) with ⟨_, h⟩ | ⟨h, _⟩
  · exact h (hiam parseAny rfl)
  · exact hpw h

/-- C4, amended: for every accepted configuration at least one of the two
holds, a non-empty password or a valid IAMAuth block (never neither). -/
theorem validate_password_or_IAM (urlParse : String → Option String) (c : Config)
    (h : c.validate urlParse = none) :
    c.Password ≠ "" ∨ c.IAMAuth.validate urlParse = none := by
  rw [Config_validate_eq] at h
  by_cases hp : c.Password = ""
  · right
    by_cases h1 : c.Host = ""
    · simp [h1] at h
    by_cases h2 : c.Port ≤ 0
    · simp [h1, h2] at h
    by_cases h3 : c.User = ""
    · simp [h1, h2, h3] at h
    by_cases h4 : c.SSLRootCert = "" ∧ (c.SSLMode = "verify-ca" ∨ c.SSLMode = "verify-full")
    · simp [h1, h2, h3, h4] at h
    · simpa [h1, h2, h3, h4, hp] using h
  · exact Or.inl hp

/-- The configuration of `valid.yaml` with defaults applied has no password, is
accepted when `url.Parse` accepts its endpoint, and so has a valid IAMAuth block. -/
theorem validate_password_or_IAM_witness :
    validYaml.populateDefaultValues.validate parseAny = none ∧
    (validYaml.populateDefaultValues.Password ≠ "" ∨
      validYaml.populateDefaultValues.IAMAuth.validate parseAny = none) :=
  ⟨by decide, validate_password_or_IAM parseAny validYaml.populateDefaultValues (by decide)⟩

theorem populateDefaultValues_nonempty (c : Config) :
    c.populateDefaultValues.DBName ≠ "" ∧ c.populateDefaultValues.SSLMode ≠ "" := by
  unfold Config.populateDefaultValues
  by_cases h1 : c.Port = 0 <;> by_cases h2 : c.DBName = "" <;> by_cases h3 : c.SSLMode = ""
    <;> simp [h1, h2, h3, defaultDBName, defaultSSLMode]

/-- C5: a `Config` that `New` returns comes without error and satisfies the
constraints of the data model (host, port, database name, user, TLS mode and root
certificate, and the IAMAuth fields when the password is empty); and when `New`
returns an error it returns no `Config`. -/
theorem New_result_constraints {G : Type} (convert : G → Config → Config × Option String)
    (urlParse : String → Option String) (ci : G) :
    (∀ c : Config, (New convert urlParse ci).1 = some c →
      (New convert urlParse ci).2 = none ∧
      c.Host ≠ "" ∧ 0 < c.Port ∧ c.DBName ≠ "" ∧ c.User ≠ "" ∧ c.SSLMode ≠ "" ∧
      ((c.SSLMode = "verify-ca" ∨ c.SSLMode = "verify-full") → c.SSLRootCert ≠ "") ∧
      (c.Password = "" →
        c.IAMAuth.Region ≠ "" ∧ c.IAMAuth.CredentialsProvider.AthenzDomain ≠ "" ∧
        c.IAMAuth.CredentialsProvider.IAMRole ≠ "" ∧
        0 < c.IAMAuth.CredentialsProvider.RenewThresholdInSeconds)) ∧
    ((New convert urlParse ci).2 ≠ none → (New convert urlParse ci).1 = none) := by
  rcases hconv : convert ci ({} : Config) with ⟨c0, e0⟩
  cases e0 with
  | some err => simp [New, hconv, Errorf]
  | none =>
    cases hv : c0.populateDefaultValues.validate urlParse with
    | some err => simp [New, hconv, hv]
    | none =>
      simp only [New, hconv, hv, Option.some.injEq, ne_eq, not_true_eq_false, false_implies,
        and_true, true_and]
      intro c hc
      subst hc
      rw [Config_validate_eq, IAMAuth_validate_eq, ZTS_validate_eq] at hv
      by_cases h1 : c0.populateDefaultValues.Host = ""
      · simp [h1] at hv
      by_cases h2 : c0.populateDefaultValues.Port ≤ 0
      · simp [h1, h2] at hv
      by_cases h3 : c0.populateDefaultValues.User = ""
      · simp [h1, h2, h3] at hv
      by_cases h4 : c0.populateDefaultValues.SSLRootCert = "" ∧
          (c0.populateDefaultValues.SSLMode = "verify-ca" ∨
            c0.populateDefaultValues.SSLMode = "verify-full")
      · simp [h1, h2, h3, h4] at hv
      have hdb : c0.populateDefaultValues.DBName ≠ "" :=
        (populateDefaultValues_nonempty c0).1
      have hmode : c0.populateDefaultValues.SSLMode ≠ "" :=
        (populateDefaultValues_nonempty c0).2
      refine ⟨h1, not_le.1 h2, hdb, h3, hmode, ?_, ?_⟩
      · intro hm hcert
        exact h4 ⟨hcert, hm⟩
      · intro hp
        simp only [h1, h2, h3, h4, hp, if_false, ne_eq, not_true_eq_false] at hv
        by_cases h6 : c0.populateDefaultValues.IAMAuth.Region = ""
        · simp [h6] at hv
        cases h7 : urlParse c0.populateDefaultValues.IAMAuth.CredentialsProvider.APIEndpoint with
        | some err => simp [h6, h7] at hv
        | none =>
          by_cases h8 : c0.populateDefaultValues.IAMAuth.CredentialsProvider.AthenzDomain = ""
          · simp [h6, h7, h8] at hv
          by_cases h9 : c0.populateDefaultValues.IAMAuth.CredentialsProvider.IAMRole = ""
          · simp [h6, h7, h8, h9] at hv
          by_cases h10 :
              c0.populateDefaultValues.IAMAuth.CredentialsProvider.RenewThresholdInSeconds ≤ 0
          · simp [h6, h7, h8, h9, h10] at hv
          · exact ⟨h6, h8, h9, not_le.1 h10⟩

/-- On the configuration of `valid.yaml`, `New` returns the configuration the
test expects (port 5432, database "grafeas", TLS mode "verify-full", threshold
600), and it satisfies the constraints. -/
theorem New_result_constraints_witness :
    (New (fun (_ : Unit) (_ : Config) => (validYaml, none)) parseAny ()).1
      = some validYaml.populateDefaultValues ∧
    (validYaml.populateDefaultValues.Port = 5432 ∧
      validYaml.populateDefaultValues.DBName = "grafeas" ∧
      validYaml.populateDefaultValues.SSLMode = "verify-full" ∧
      validYaml.populateDefaultValues.IAMAuth.CredentialsProvider.RenewThresholdInSeconds
        = 600) ∧
    ((New (fun (_ : Unit) (_ : Config) => (validYaml, none)) parseAny ()).2 = none ∧
      validYaml.populateDefaultValues.Host ≠ "" ∧ 0 < validYaml.populateDefaultValues.Port ∧
      validYaml.populateDefaultValues.DBName ≠ "" ∧ validYaml.populateDefaultValues.User ≠ "" ∧
      validYaml.populateDefaultValues.SSLMode ≠ "" ∧
      ((validYaml.populateDefaultValues.SSLMode = "verify-ca" ∨
          validYaml.populateDefaultValues.SSLMode = "verify-full") →
        validYaml.populateDefaultValues.SSLRootCert ≠ "") ∧
      (validYaml.populateDefaultValues.Password = "" →
        validYaml.populateDefaultValues.IAMAuth.Region ≠ "" ∧
        validYaml.populateDefaultValues.IAMAuth.CredentialsProvider.AthenzDomain ≠ "" ∧
        validYaml.populateDefaultValues.IAMAuth.CredentialsProvider.IAMRole ≠ "" ∧
        0 < validYaml.populateDefaultValues.IAMAuth.CredentialsProvider.RenewThresholdInSeconds)) :=
  ⟨by decide, by decide,
   (New_result_constraints (fun (_ : Unit) (_ : Config) => (validYaml, none)) parseAny ()).1
    validYaml.populateDefaultValues (by decide)⟩

/-! ## Connector -/

theorem assembleDSN_data {Drv : Type} (c : connector Drv) :
    c.assembleDSN.data =
      "host=".data ++ (c.host.data ++ (" port=".data ++ (fmtInt c.port ++ (" dbname=".data ++
        (c.dbName.data ++ (" user=".data ++ (c.user.data ++ (" password=".data ++
          (c.password.data ++ (" sslmode=".data ++ (c.sslMode.data ++
            (if c.sslRootCert = "" then [] else " sslrootcert=".data ++ c.sslRootCert.data)
            ))))))))))) := by
  unfold connector.assembleDSN
  by_cases h : c.sslRootCert = ""
  · simp [h, Sprintf, sprintfAux, formatVerb, FmtArg.accepts, FmtArg.value]
  · simp [h, Sprintf, sprintfAux, formatVerb, FmtArg.accepts, FmtArg.value]

/-! ### The port in decimal -/

theorem toDigitsCore_eq_digitsRev (fuel : Nat) :
    ∀ (n : Nat) (ds : List Char),
      Nat.toDigitsCore 10 fuel n ds = (digitsRev fuel n).reverse ++ ds := by
  induction fuel with
  | zero => intro n ds; simp [Nat.toDigitsCore, digitsRev]
  | succ f ih =>
    intro n ds
    unfold Nat.toDigitsCore digitsRev
    by_cases hn : n < 10
    · have h0 : n / 10 = 0 := Nat.div_eq_of_lt hn
      have hm : n % 10 = n := Nat.mod_eq_of_lt hn
      simp [hn, h0, hm]
    · have h0 : n / 10 ≠ 0 := by omega
      simp [hn, h0, ih]

/-- The formatter of the model writes a natural number as the decimal printer of
the Lean library does. -/
theorem fmtUint_eq_repr (u : Nat) : String.mk (fmtUint u) = toString u := by
  show String.mk (fmtUint u) = Nat.repr u
  unfold fmtUint Nat.repr Nat.toDigits List.asString
  rw [toDigitsCore_eq_digitsRev, List.append_nil]

/-- The formatter of the model writes an integer as the decimal printer of the
Lean library does: the digits of a natural number, and a minus sign followed by
the digits of the magnitude for a negative one. -/
theorem fmtInt_eq_toString (n : Int) : String.mk (fmtInt n) = toString n := by
  cases n with
  | ofNat m => exact fmtUint_eq_repr m
  | negSucc m =>
    show String.mk ('-' :: fmtUint (m + 1)) = "-" ++ toString (m + 1)
    rw [← fmtUint_eq_repr]
    apply String.ext
    simp [String.data_append]

/-- C6: `assembleDSN` returns exactly
`host=<host> port=<port> dbname=<dbName> user=<user> password=<password> sslmode=<sslMode>`,
with the port in decimal (the text the decimal printer of the Lean library gives
for the integer), followed by ` sslrootcert=<sslRootCert>` if and only if the
root certificate is non-empty; on the connector of the test it gives the two
expected strings. -/
theorem assembleDSN_format {Drv : Type} (c : connector Drv) :
    c.assembleDSN =
      "host=" ++ c.host ++ " port=" ++ toString c.port ++ " dbname=" ++ c.dbName ++
        " user=" ++ c.user ++ " password=" ++ c.password ++ " sslmode=" ++ c.sslMode ++
        (if c.sslRootCert = "" then "" else " sslrootcert=" ++ c.sslRootCert) ∧
    (toString (5432 : Int) = "5432" ∧ toString (0 : Int) = "0" ∧
      toString (65535 : Int) = "65535" ∧ toString (-15 : Int) = "-15") ∧
    (testConnector "").assembleDSN =
      "host=localhost port=5432 dbname=grafeas user=grafeas_rw password=dummy-password-for-unit-tests-only sslmode=verify-full" ∧
    (testConnector "ca.pem").assembleDSN =
      "host=localhost port=5432 dbname=grafeas user=grafeas_rw password=dummy-password-for-unit-tests-only sslmode=verify-full sslrootcert=ca.pem" ∧
    connector.assembleDSN
        { host := "db", port := 6543, dbName := "d", user := "u", password := "p",
          sslMode := "disable", driver := () } =
      "host=db port=6543 dbname=d user=u password=p sslmode=disable" ∧
    connector.assembleDSN
        { host := "db", port := -7, dbName := "d", user := "u", password := "p",
          sslMode := "disable", sslRootCert := "r", driver := () } =
      "host=db port=-7 dbname=d user=u password=p sslmode=disable sslrootcert=r" := by
  refine ⟨?_, by decide, by decide, by decide, by decide, by decide⟩
  rw [← fmtInt_eq_toString]
  apply String.ext
  rw [assembleDSN_data]
  by_cases h : c.sslRootCert = ""
  · simp [h]
  · simp [h]

/-! ### Recovering the fields from the DSN -/

theorem digitChar_lt_ten (k : Nat) (h : k < 10) :
    (Nat.digitChar k).toNat - 48 = k ∧ Nat.digitChar k ≠ ' ' ∧ Nat.digitChar k ≠ '-' := by
  interval_cases k <;> decide

theorem valueOfDigitsRev_digitsRev (fuel u : Nat) (h : u < fuel) :
    valueOfDigitsRev (digitsRev fuel u) = u := by
  induction fuel generalizing u with
  | zero => omega
  | succ f ih =>
    unfold digitsRev
    by_cases hu : u < 10
    · simp [hu, valueOfDigitsRev, (digitChar_lt_ten u hu).1]
    · have hlt : u / 10 < f := by omega
      have hmod : u % 10 < 10 := Nat.mod_lt _ (by decide)
      simp only [hu, if_false, valueOfDigitsRev, (digitChar_lt_ten _ hmod).1, ih _ hlt]
      omega

theorem digitsRev_no_space_no_minus (fuel u : Nat) :
    ∀ ch ∈ digitsRev fuel u, ch ≠ ' ' ∧ ch ≠ '-' := by
  induction fuel generalizing u with
  | zero => intro ch h; simp [digitsRev] at h
  | succ f ih =>
    intro ch h
    unfold digitsRev at h
    by_cases hu : u < 10
    · simp only [hu, if_true, List.mem_singleton] at h
      subst h
      exact (digitChar_lt_ten u hu).2
    · simp only [hu, if_false, List.mem_cons] at h
      rcases h with h | h
      · subst h
        exact (digitChar_lt_ten _ (Nat.mod_lt _ (by decide))).2
      · exact ih _ ch h

theorem fmtUint_injective (a b : Nat) (h : fmtUint a = fmtUint b) : a = b := by
  unfold fmtUint at h
  have h2 := List.reverse_injective h
  have ha := valueOfDigitsRev_digitsRev (a + 1) a (Nat.lt_succ_self a)
  have hb := valueOfDigitsRev_digitsRev (b + 1) b (Nat.lt_succ_self b)
  rw [h2] at ha
  omega

theorem fmtUint_no_space_no_minus (u : Nat) : ∀ ch ∈ fmtUint u, ch ≠ ' ' ∧ ch ≠ '-' := by
  intro ch h
  unfold fmtUint at h
  exact digitsRev_no_space_no_minus _ _ ch (List.mem_reverse.1 h)

theorem fmtInt_injective (a b : Int) (h : fmtInt a = fmtInt b) : a = b := by
  cases a with
  | ofNat m =>
    cases b with
    | ofNat n =>
      simp only [fmtInt] at h
      rw [fmtUint_injective m n h]
    | negSucc n =>
      simp only [fmtInt] at h
      have hm : '-' ∈ fmtUint m := by rw [h]; exact List.mem_cons_self _ _
      exact absurd rfl (fmtUint_no_space_no_minus m _ hm).2
  | negSucc m =>
    cases b with
    | ofNat n =>
      simp only [fmtInt] at h
      have hm : '-' ∈ fmtUint n := by rw [← h]; exact List.mem_cons_self _ _
      exact absurd rfl (fmtUint_no_space_no_minus n _ hm).2
    | negSucc n =>
      simp only [fmtInt, List.cons.injEq, true_and] at h
      have := fmtUint_injective _ _ h
      have hmn : m = n := by omega
      rw [hmn]

theorem fmtInt_no_space (n : Int) : ' ' ∉ fmtInt n := by
  intro h
  cases n with
  | ofNat m =>
    simp only [fmtInt] at h
    exact absurd rfl (fmtUint_no_space_no_minus m _ h).1
  | negSucc m =>
    simp only [fmtInt, List.mem_cons] at h
    rcases h with h | h
    · exact absurd h (by decide)
    · exact absurd rfl (fmtUint_no_space_no_minus _ _ h).1

/-- Two texts without a space, each followed by a space, are cut at that space. -/
theorem split_at_space (a b x y : List Char) (ha : ' ' ∉ a) (hb : ' ' ∉ b)
    (h : a ++ ' ' :: x = b ++ ' ' :: y) : a = b ∧ x = y := by
  induction a generalizing b with
  | nil =>
    cases b with
    | nil => simpa using h
    | cons c b =>
      simp only [List.nil_append, List.cons_append, List.cons.injEq] at h
      exact absurd (h.1 ▸ List.mem_cons_self _ _) hb
  | cons d a ih =>
    cases b with
    | nil =>
      simp only [List.nil_append, List.cons_append, List.cons.injEq] at h
      exact absurd (h.1 ▸ List.mem_cons_self _ _) ha
    | cons c b =>
      simp only [List.cons_append, List.cons.injEq] at h
      have ha2 : ' ' ∉ a := fun hm => ha (List.mem_cons_of_mem _ hm)
      have hb2 : ' ' ∉ b := fun hm => hb (List.mem_cons_of_mem _ hm)
      obtain ⟨e1, e2⟩ := ih b ha2 hb2 h.2
      exact ⟨by rw [h.1, e1], e2⟩

theorem assembleDSN_segments {Drv : Type} (c : connector Drv) :
    c.assembleDSN.data =
      "host=".data ++ (c.host.data ++ ' ' :: ("port=".data ++ (fmtInt c.port ++ ' ' ::
        ("dbname=".data ++ (c.dbName.data ++ ' ' :: ("user=".data ++ (c.user.data ++ ' ' ::
          ("password=".data ++ (c.password.data ++ ' ' :: ("sslmode=".data ++
            (c.sslMode.data ++
              (if c.sslRootCert = "" then []
               else ' ' :: ("sslrootcert=".data ++ c.sslRootCert.data))))))))))))) := by
  rw [assembleDSN_data]
  by_cases h : c.sslRootCert = ""
  · simp only [h, if_true]; rfl
  · simp only [h, if_false]; rfl

/-- C7, as stated, fails: the connectors `spacedPassword` and `spacedSSLMode`
differ in password and TLS mode and have the same DSN. -/
theorem assembleDSN_not_injective :
    spacedPassword.assembleDSN = spacedSSLMode.assembleDSN ∧
    spacedPassword.password ≠ spacedSSLMode.password ∧
    spacedPassword.sslMode ≠ spacedSSLMode.sslMode ∧
    ¬ ∀ c1 c2 : connector Unit, c1.assembleDSN = c2.assembleDSN →
        c1.host = c2.host ∧ c1.port = c2.port ∧ c1.dbName = c2.dbName ∧ c1.user = c2.user ∧
        c1.password = c2.password ∧ c1.sslMode = c2.sslMode ∧
        c1.sslRootCert = c2.sslRootCert := by
  have hd : spacedPassword.assembleDSN = spacedSSLMode.assembleDSN := by decide
  have hp : spacedPassword.password ≠ spacedSSLMode.password := by decide
  refine ⟨hd, hp, by decide, ?_⟩
  intro hall
  exact hp (hall _ _ hd).2.2.2.2.1

/-- C7, amended: for connectors whose host, dbName, user, password and sslMode
hold no space, the seven fields are recoverable from the DSN: two such
connectors with the same DSN agree on all seven. -/
theorem assembleDSN_injective_without_spaces {Drv : Type} (c1 c2 : connector Drv)
    (h1 : ' ' ∉ c1.host.data ∧ ' ' ∉ c1.dbName.data ∧ ' ' ∉ c1.user.data ∧
      ' ' ∉ c1.password.data ∧ ' ' ∉ c1.sslMode.data)
    (h2 : ' ' ∉ c2.host.data ∧ ' ' ∉ c2.dbName.data ∧ ' ' ∉ c2.user.data ∧
      ' ' ∉ c2.password.data ∧ ' ' ∉ c2.sslMode.data)
    (h : c1.assembleDSN = c2.assembleDSN) :
    c1.host = c2.host ∧ c1.port = c2.port ∧ c1.dbName = c2.dbName ∧ c1.user = c2.user ∧
    c1.password = c2.password ∧ c1.sslMode = c2.sslMode ∧ c1.sslRootCert = c2.sslRootCert := by
  have hd := congrArg String.data h
  rw [assembleDSN_segments, assembleDSN_segments] at hd
  obtain ⟨hHost1, hDb1, hUser1, hPw1, hMode1⟩ := h1
  obtain ⟨hHost2, hDb2, hUser2, hPw2, hMode2⟩ := h2
  have e0 := List.append_cancel_left hd
  obtain ⟨eHost, e1⟩ := split_at_space _ _ _ _ hHost1 hHost2 e0
  have e1 := List.append_cancel_left e1
  obtain ⟨ePort, e2⟩ := split_at_space _ _ _ _ (fmtInt_no_space _) (fmtInt_no_space _) e1
  have e2 := List.append_cancel_left e2
  obtain ⟨eDb, e3⟩ := split_at_space _ _ _ _ hDb1 hDb2 e2
  have e3 := List.append_cancel_left e3
  obtain ⟨eUser, e4⟩ := split_at_space _ _ _ _ hUser1 hUser2 e3
  have e4 := List.append_cancel_left e4
  obtain ⟨ePw, e5⟩ := split_at_space _ _ _ _ hPw1 hPw2 e4
  have e5 := List.append_cancel_left e5
  have hlast : c1.sslMode.data = c2.sslMode.data ∧ c1.sslRootCert = c2.sslRootCert := by
    by_cases r1 : c1.sslRootCert = ""
    · by_cases r2 : c2.sslRootCert = ""
      · simp only [r1, r2, if_true, List.append_nil] at e5
        exact ⟨e5, by rw [r1, r2]⟩
      · simp only [r1, r2, if_true, if_false, List.append_nil] at e5
        exact absurd (e5 ▸ List.mem_append_right _ (List.mem_cons_self _ _)) hMode1
    · by_cases r2 : c2.sslRootCert = ""
      · simp only [r1, r2, if_true, if_false, List.append_nil] at e5
        exact absurd (e5 ▸ List.mem_append_right _ (List.mem_cons_self _ _)) hMode2
      · simp only [r1, r2, if_false] at e5
        obtain ⟨eMode, e6⟩ := split_at_space _ _ _ _ hMode1 hMode2 e5
        exact ⟨eMode, String.ext (List.append_cancel_left e6)⟩
  exact ⟨String.ext eHost, fmtInt_injective _ _ ePort, String.ext eDb, String.ext eUser,
    String.ext ePw, String.ext hlast.1, hlast.2⟩

/-- The connector of the test `TestAssembleDSN` and the same connector with its
DSN cached hold no space and have the same DSN; they agree on the seven fields. -/
theorem assembleDSN_injective_without_spaces_witness :
    (testConnector "ca.pem").assembleDSN = (testConnector "ca.pem").updateDSN.assembleDSN ∧
    testConnector "ca.pem" ≠ (testConnector "ca.pem").updateDSN ∧
    ((testConnector "ca.pem").host = (testConnector "ca.pem").updateDSN.host ∧
      (testConnector "ca.pem").port = (testConnector "ca.pem").updateDSN.port ∧
      (testConnector "ca.pem").dbName = (testConnector "ca.pem").updateDSN.dbName ∧
      (testConnector "ca.pem").user = (testConnector "ca.pem").updateDSN.user ∧
      (testConnector "ca.pem").password = (testConnector "ca.pem").updateDSN.password ∧
      (testConnector "ca.pem").sslMode = (testConnector "ca.pem").updateDSN.sslMode ∧
      (testConnector "ca.pem").sslRootCert = (testConnector "ca.pem").updateDSN.sslRootCert) :=
  ⟨by decide, by decide,
   assembleDSN_injective_without_spaces (testConnector "ca.pem")
    (testConnector "ca.pem").updateDSN (by decide) (by decide) (by decide)⟩

theorem Sprintf_endpoint (host : String) (port : Int) :
    Sprintf "%s:%d" [FmtArg.str host, FmtArg.int port] = host ++ ":" ++ String.mk (fmtInt port) := by
  apply String.ext
  simp [Sprintf, sprintfAux, formatVerb, FmtArg.accepts, FmtArg.value]

/-- C8, as stated, fails: with the password of the tests configured and a
credentials creator present, `newConnector` calls the creator with the IAMAuth
block, derives a token, and caches a DSN whose password segment is the token and
not the configured password. -/
theorem newConnector_password_and_creator :
    passwordOnly.Password = "dummy-password-for-unit-tests-only" ∧
    newConnector passwordOnly () (some staticCreator) tokenOf =
      (some
        { host := "some-host.rds.amazonaws.com", port := 5432, dbName := "grafeas",
          user := "grafeas_rw",
          password := "some-host.rds.amazonaws.com:5432?region=&user=grafeas_rw",
          sslMode := "verify-full", sslRootCert := "/opt/rds-ca-2019-root.pem",
          driver := (),
          dsn := "host=some-host.rds.amazonaws.com port=5432 dbname=grafeas user=grafeas_rw password=some-host.rds.amazonaws.com:5432?region=&user=grafeas_rw sslmode=verify-full sslrootcert=/opt/rds-ca-2019-root.pem" },
       none,
       [ConnEvent.log "Opt in IAM Authentication...",
        ConnEvent.credentialsCreate passwordOnly.IAMAuth,
        ConnEvent.buildAuthToken "some-host.rds.amazonaws.com:5432" "" "grafeas_rw" "static a b c",
        ConnEvent.goRefreshAuthTokenPeriodically "static a b c" "" 600000000000]) := by
  set_option maxRecDepth 100000 in decide

/-- C9: with no credentials creator `newConnector` succeeds, copies the seven
fields from the config, keeps the driver, caches as DSN the `assembleDSN` of
those fields with the configured password, and does nothing else (no log line,
no call, no renewal task). -/
theorem newConnector_static {Creds Drv : Type} (conf : Config) (driver : Drv)
    (build : String → String → String → Creds → String × Option String) :
    ∃ c : connector Drv,
      newConnector conf driver (none : Option (IAMAuthConfig → Creds × Option String)) build
        = (some c, none, []) ∧
      c.host = conf.Host ∧ c.port = conf.Port ∧ c.dbName = conf.DBName ∧ c.user = conf.User ∧
      c.password = conf.Password ∧ c.sslMode = conf.SSLMode ∧
      c.sslRootCert = conf.SSLRootCert ∧ c.driver = driver ∧
      c.readDSN = c.assembleDSN ∧
      c.readDSN = connector.assembleDSN
        { host := conf.Host, port := conf.Port, dbName := conf.DBName, user := conf.User,
          password := conf.Password, sslMode := conf.SSLMode, sslRootCert := conf.SSLRootCert,
          driver := driver } :=
  ⟨_, rfl, rfl, rfl, rfl, rfl, rfl, rfl, rfl, rfl, rfl, rfl⟩

/-- C10: with a credentials creator, `newConnector` has three outcomes. If the
creator fails, the result is no connector and the error
`failed to set up IAM auth, err: failed to create AWS credentials, err: <cause>`,
and no token derivation is attempted. If the creator succeeds and the derivation
fails, the result is no connector and the error
`failed to set up IAM auth, err: failed to refresh auth token, err: <cause>`.
Neither failure starts the renewal task. Otherwise it succeeds (with a connector
and no error), so it fails if and only if one of the two fails; and the two
error texts differ whatever the causes. -/
theorem newConnector_IAM_outcomes {Creds Drv : Type} (conf : Config) (driver : Drv)
    (create : IAMAuthConfig → Creds × Option String)
    (build : String → String → String → Creds → String × Option String) :
    (∀ cause : String, (create conf.IAMAuth).2 = some cause →
      newConnector conf driver (some create) build =
        (none,
         some ("failed to set up IAM auth, err: failed to create AWS credentials, err: " ++ cause),
         [ConnEvent.log logsOptInIAMAuth, ConnEvent.credentialsCreate conf.IAMAuth])) ∧
    (∀ cause : String, (create conf.IAMAuth).2 = none →
      (build (conf.Host ++ ":" ++ String.mk (fmtInt conf.Port)) conf.IAMAuth.Region conf.User
        (create conf.IAMAuth).1).2 = some cause →
      newConnector conf driver (some create) build =
        (none,
         some ("failed to set up IAM auth, err: failed to refresh auth token, err: " ++ cause),
         [ConnEvent.log logsOptInIAMAuth, ConnEvent.credentialsCreate conf.IAMAuth,
          ConnEvent.buildAuthToken (conf.Host ++ ":" ++ String.mk (fmtInt conf.Port))
            conf.IAMAuth.Region conf.User (create conf.IAMAuth).1])) ∧
    ((create conf.IAMAuth).2 = none →
      (build (conf.Host ++ ":" ++ String.mk (fmtInt conf.Port)) conf.IAMAuth.Region conf.User
        (create conf.IAMAuth).1).2 = none →
      ∃ c : connector Drv,
        newConnector conf driver (some create) build =
          (some c, none,
           [ConnEvent.log logsOptInIAMAuth, ConnEvent.credentialsCreate conf.IAMAuth,
            ConnEvent.buildAuthToken (conf.Host ++ ":" ++ String.mk (fmtInt conf.Port))
              conf.IAMAuth.Region conf.User (create conf.IAMAuth).1,
            ConnEvent.goRefreshAuthTokenPeriodically (create conf.IAMAuth).1 conf.IAMAuth.Region
              refreshAuthTokenInterval])) ∧
    ((newConnector conf driver (some create) build).2.1 ≠ none ↔
      ((create conf.IAMAuth).2 ≠ none ∨
        (build (conf.Host ++ ":" ++ String.mk (fmtInt conf.Port)) conf.IAMAuth.Region conf.User
          (create conf.IAMAuth).1).2 ≠ none)) ∧
    (∀ cause1 cause2 : String,
      "failed to set up IAM auth, err: failed to create AWS credentials, err: " ++ cause1 ≠
      "failed to set up IAM auth, err: failed to refresh auth token, err: " ++ cause2) := by
  have hdiff : ∀ cause1 cause2 : String,
      "failed to set up IAM auth, err: failed to create AWS credentials, err: " ++ cause1 ≠
      "failed to set up IAM auth, err: failed to refresh auth token, err: " ++ cause2 := by
    intro cause1 cause2 h
    have hd := congrArg String.data h
    simp [String.data_append] at hd
  rcases hc : create conf.IAMAuth with ⟨creds, ce⟩
  cases ce with
  | some cause =>
    refine ⟨?_, ?_, ?_, ?_, hdiff⟩
    · intro cause2 h2
      simp only [Option.some.injEq] at h2
      subst h2
      simp [newConnector, connector.setupIAMAuth, hc, Errorf, Sprintf_wrap, errMsgSetupIAMAuth,
        errMsgCreateCredentials]
      apply String.ext
      simp [String.data_append]
    · intro cause2 h2
      simp at h2
    · intro h2
      simp at h2
    · simp [newConnector, connector.setupIAMAuth, hc, Errorf]
  | none =>
    rcases hb : build (conf.Host ++ ":" ++ String.mk (fmtInt conf.Port)) conf.IAMAuth.Region
      conf.User creds with ⟨token, be⟩
    cases be with
    | some cause =>
      refine ⟨?_, ?_, ?_, ?_, hdiff⟩
      · intro cause2 h2
        simp at h2
      · intro cause2 _ h2
        simp only [Option.some.injEq] at h2
        subst h2
        simp [newConnector, connector.setupIAMAuth, connector.refreshAuthToken, hc, hb, Errorf,
          Sprintf_wrap, Sprintf_endpoint, errMsgSetupIAMAuth, errMsgRefreshAuthToken]
        apply String.ext
        simp [String.data_append]
      · intro _ h2
        simp at h2
      · simp [newConnector, connector.setupIAMAuth, connector.refreshAuthToken, hc, hb, Errorf,
          Sprintf_endpoint]
    | none =>
      refine ⟨?_, ?_, ?_, ?_, hdiff⟩
      · intro cause2 h2
        simp at h2
      · intro cause2 _ h2
        simp at h2
      · intro _ _
        simp [newConnector, connector.setupIAMAuth, connector.refreshAuthToken, hc, hb,
          Sprintf_endpoint]
      · simp [newConnector, connector.setupIAMAuth, connector.refreshAuthToken, hc, hb,
          Sprintf_endpoint]

/-- On the configuration of `valid.yaml`: a failing creator gives the
credential-creation error, and a succeeding creator with a failing derivation
gives the token-derivation error; neither returns a connector. -/
theorem newConnector_IAM_outcomes_witness :
    ((newConnector validYaml.populateDefaultValues () (some failingCreator) tokenOf).1 = none ∧
      (newConnector validYaml.populateDefaultValues () (some failingCreator) tokenOf).2.1 =
        some "failed to set up IAM auth, err: failed to create AWS credentials, err: some error") ∧
    ((newConnector validYaml.populateDefaultValues () (some staticCreator) noToken).1 = none ∧
      (newConnector validYaml.populateDefaultValues () (some staticCreator) noToken).2.1 =
        some "failed to set up IAM auth, err: failed to refresh auth token, err: empty secret key") := by
  have h1 := (newConnector_IAM_outcomes validYaml.populateDefaultValues () failingCreator
    tokenOf).1 "some error" rfl
  have h2 := (newConnector_IAM_outcomes validYaml.populateDefaultValues () staticCreator
    noToken).2.1 "empty secret key" rfl rfl
  rw [h1, h2]
  exact ⟨⟨rfl, by decide⟩, ⟨rfl, by decide⟩⟩

/-! ### Token refresh -/

theorem password_infix_assembleDSN {Drv : Type} (c : connector Drv) :
    c.password.data <:+: c.assembleDSN.data := by
  rw [assembleDSN_data]
  refine ⟨"host=".data ++ (c.host.data ++ (" port=".data ++ (fmtInt c.port ++ (" dbname=".data ++
      (c.dbName.data ++ (" user=".data ++ (c.user.data ++ " password=".data))))))),
    " sslmode=".data ++ (c.sslMode.data ++
      (if c.sslRootCert = "" then [] else " sslrootcert=".data ++ c.sslRootCert.data)), ?_⟩
  simp only [List.append_assoc]

/-- C11, amended: when the derivation from the endpoint `<host>:<port>`, the
region, the user of the connector and the credentials succeeds with a token,
`refreshAuthToken` makes exactly that call, stores the token as the password,
returns nil, and afterwards `readDSN` is `assembleDSN` of the connector with the
token as password: the DSN contains the token, and it contains the region
whenever the token contains it. The other fields are unchanged. -/
theorem refreshAuthToken_success {Creds Drv : Type}
    (build : String → String → String → Creds → String × Option String)
    (c : connector Drv) (creds : Creds) (region token : String)
    (h : build (c.host ++ ":" ++ String.mk (fmtInt c.port)) region c.user creds = (token, none)) :
    (c.refreshAuthToken build creds region).2 =
      (none, [ConnEvent.buildAuthToken (c.host ++ ":" ++ String.mk (fmtInt c.port)) region
        c.user creds]) ∧
    (c.refreshAuthToken build creds region).1.password = token ∧
    (c.refreshAuthToken build creds region).1.readDSN =
      connector.assembleDSN { c with password := token } ∧
    (c.refreshAuthToken build creds region).1.readDSN =
      (c.refreshAuthToken build creds region).1.assembleDSN ∧
    token.data <:+: (c.refreshAuthToken build creds region).1.readDSN.data ∧
    (region.data <:+: token.data →
      region.data <:+: (c.refreshAuthToken build creds region).1.readDSN.data) ∧
    (c.refreshAuthToken build creds region).1 =
      { c with password := token, dsn := connector.assembleDSN { c with password := token } } := by
  have e : c.refreshAuthToken build creds region =
      ({ c with password := token, dsn := connector.assembleDSN { c with password := token } },
        none,
        [ConnEvent.buildAuthToken (c.host ++ ":" ++ String.mk (fmtInt c.port)) region
          c.user creds]) := by
    simp [connector.refreshAuthToken, Sprintf_endpoint, h, connector.updatePassword,
      connector.updateDSN]
  have hin : token.data <:+: (connector.assembleDSN { c with password := token }).data :=
    password_infix_assembleDSN { c with password := token }
  rw [e]
  refine ⟨rfl, rfl, rfl, rfl, hin, ?_, rfl⟩
  intro hr
  exact List.IsInfix.trans hr hin

/-- On the connector of `TestAssembleDSN` and the region `some-region` of
`TestRefreshAuthToken`, with a deriver whose token names the region. -/
theorem refreshAuthToken_success_witness :
    ((testConnector "").refreshAuthToken tokenOf "static a b c" "some-region").1.readDSN =
      "host=localhost port=5432 dbname=grafeas user=grafeas_rw password=localhost:5432?region=some-region&user=grafeas_rw sslmode=verify-full" ∧
    ((testConnector "").refreshAuthToken tokenOf "static a b c" "some-region").1.password =
      "localhost:5432?region=some-region&user=grafeas_rw" := by
  have h := refreshAuthToken_success tokenOf (testConnector "") "static a b c" "some-region"
    "localhost:5432?region=some-region&user=grafeas_rw" (by decide)
  rw [h.2.2.1, h.2.1]
  exact ⟨by decide, rfl⟩

/-! ### The renewal loop -/

theorem periodically_returns_only_when_done {Creds Drv : Type}
    (build : Nat → String → String → String → Creds → String × Option String)
    (creds : Creds) (region : String) (obs : List SelectReady) :
    ∀ (n : Nat) (c : connector Drv),
      (c.refreshAuthTokenPeriodically build creds region n obs).2.1 = true →
      ∃ r ∈ obs, r.done = true := by
  induction obs with
  | nil => intro n c h; simp [connector.refreshAuthTokenPeriodically] at h
  | cons r rest ih =>
    intro n c h
    by_cases hd : r.done = true
    · exact ⟨r, List.mem_cons_self _ _, hd⟩
    · have hd2 : r.done = false := by simpa using hd
      unfold connector.refreshAuthTokenPeriodically at h
      simp only [hd2, Bool.false_and, Bool.false_eq_true, if_false] at h
      by_cases ht : r.tick = true
      · simp only [ht, if_true] at h
        rcases hres : c.refreshAuthToken (build n) creds region with ⟨c1, e, evs⟩
        rw [hres] at h
        cases e with
        | some err =>
          simp only at h
          obtain ⟨r2, hm, hr2⟩ := ih (n + 1) c1 h
          exact ⟨r2, List.mem_cons_of_mem _ hm, hr2⟩
        | none =>
          simp only at h
          obtain ⟨r2, hm, hr2⟩ := ih (n + 1) c1 h
          exact ⟨r2, List.mem_cons_of_mem _ hm, hr2⟩
      · simp only [ht, if_false] at h
        obtain ⟨r2, hm, hr2⟩ := ih n c h
        exact ⟨r2, List.mem_cons_of_mem _ hm, hr2⟩

/-- C12: when the token derivation fails, `refreshAuthToken` returns the error
and the connector exactly as it was (password and cached DSN included); a tick
of `refreshAuthTokenPeriodically` on which it fails only logs (the attempt, then
a line starting with `failed to refresh auth token`) and the loop goes on with
the unchanged connector to the next evaluations of its select; and the loop
returns only if the cancellation was ready at some select. -/
theorem failed_renewal_is_noop {Creds Drv : Type}
    (build : Nat → String → String → String → Creds → String × Option String)
    (c : connector Drv) (creds : Creds) (region : String) (n : Nat) (token cause : String)
    (h : build n (c.host ++ ":" ++ String.mk (fmtInt c.port)) region c.user creds
      = (token, some cause)) :
    c.refreshAuthToken (build n) creds region =
      (c, some cause,
        [ConnEvent.buildAuthToken (c.host ++ ":" ++ String.mk (fmtInt c.port)) region c.user
          creds]) ∧
    (∀ (r : SelectReady) (rest : List SelectReady), r.tick = true →
      (r.done = false ∨ r.pickTick = true) →
      c.refreshAuthTokenPeriodically build creds region n (r :: rest) =
        ((c.refreshAuthTokenPeriodically build creds region (n + 1) rest).1,
         (c.refreshAuthTokenPeriodically build creds region (n + 1) rest).2.1,
         ConnEvent.log "try to refresh auth token" ::
         ConnEvent.buildAuthToken (c.host ++ ":" ++ String.mk (fmtInt c.port)) region c.user
           creds ::
         ConnEvent.log ("failed to refresh auth token, err: " ++ cause) ::
         (c.refreshAuthTokenPeriodically build creds region (n + 1) rest).2.2)) ∧
    (∀ (m : Nat) (c0 : connector Drv) (obs : List SelectReady),
      (c0.refreshAuthTokenPeriodically build creds region m obs).2.1 = true →
      ∃ r ∈ obs, r.done = true) := by
  have e : c.refreshAuthToken (build n) creds region =
      (c, some cause,
        [ConnEvent.buildAuthToken (c.host ++ ":" ++ String.mk (fmtInt c.port)) region c.user
          creds]) := by
    simp [connector.refreshAuthToken, Sprintf_endpoint, h]
  refine ⟨e, ?_, fun m c0 obs => periodically_returns_only_when_done build creds region obs m c0⟩
  intro r rest ht hsel
  have hcond : (r.done && !(r.tick && r.pickTick)) = false := by
    rcases hsel with hd | hp
    · simp [hd]
    · simp [ht, hp]
  rw [connector.refreshAuthTokenPeriodically, if_neg (by rw [hcond]; exact Bool.false_ne_true),
    if_pos ht]
  simp only [e, Sprintf_wrap, errMsgRefreshAuthToken]
  simp

/-- A run on the connector of `TestAssembleDSN` with a deriver that always fails
(the case `invalid credentials` of the test): two ticks, then the cancellation. -/
theorem failed_renewal_is_noop_witness :
    (testConnector "").refreshAuthToken ((fun _ => noToken) 0) "anonymous" "" =
      (testConnector "", some "empty secret key",
        [ConnEvent.buildAuthToken ("localhost" ++ ":" ++ String.mk (fmtInt 5432)) ""
          "grafeas_rw" "anonymous"]) ∧
    (testConnector "").refreshAuthTokenPeriodically (fun _ => noToken) "anonymous" "" 0
        [onlyTick, onlyTick, onlyDone] =
      (testConnector "", true,
        [ConnEvent.log "try to refresh auth token",
         ConnEvent.buildAuthToken "localhost:5432" "" "grafeas_rw" "anonymous",
         ConnEvent.log "failed to refresh auth token, err: empty secret key",
         ConnEvent.log "try to refresh auth token",
         ConnEvent.buildAuthToken "localhost:5432" "" "grafeas_rw" "anonymous",
         ConnEvent.log "failed to refresh auth token, err: empty secret key"]) :=
  ⟨(failed_renewal_is_noop (fun _ => noToken) (testConnector "") "anonymous" "" 0 ""
      "empty secret key" rfl).1,
   by set_option maxRecDepth 100000 in decide⟩

/-- C13, as stated, fails: a select at which the cancellation and a tick are
both ready may take the tick. With the context cancelled before the start and a
tick due at the first select, a renewal is performed and password and DSN
change; with a cancellation that arrives after the first renewal, a second
renewal is performed at a select at which the cancellation is ready. -/
theorem renewal_after_cancellation :
    bothPickTick.done = true ∧
    ((testConnector "").refreshAuthTokenPeriodically tokenAt "static a b c" "" 0
        [bothPickTick, onlyDone]).1.password = "localhost:5432#0" ∧
    ((testConnector "").refreshAuthTokenPeriodically tokenAt "static a b c" "" 0
        [bothPickTick, onlyDone]).1.readDSN ≠ (testConnector "").readDSN ∧
    ((testConnector "").refreshAuthTokenPeriodically tokenAt "static a b c" "" 0
        [onlyTick]).1.password = "localhost:5432#0" ∧
    (testConnector "").refreshAuthTokenPeriodically tokenAt "static a b c" "" 0
        [onlyTick, bothPickTick, onlyDone] =
      ({ testConnector "" with
          password := "localhost:5432#1",
          dsn := "host=localhost port=5432 dbname=grafeas user=grafeas_rw password=localhost:5432#1 sslmode=verify-full" },
       true,
       [ConnEvent.log "try to refresh auth token",
        ConnEvent.buildAuthToken "localhost:5432" "" "grafeas_rw" "static a b c",
        ConnEvent.log "try to refresh auth token",
        ConnEvent.buildAuthToken "localhost:5432" "" "grafeas_rw" "static a b c"]) := by
  set_option maxRecDepth 100000 in decide

/-- C13, amended: the loop returns at the first select that takes the
cancellation case (the cancellation is ready and either no tick is ready or the
runtime does not pick the tick), and nothing that comes after that select has
any effect: connector and events are those of the selects before it. In
particular, when that select is the first one, the function returns at once
with no renewal, no log line, and the connector unchanged. -/
theorem no_renewal_after_cancellation_case {Creds Drv : Type}
    (build : Nat → String → String → String → Creds → String × Option String)
    (creds : Creds) (region : String) (r : SelectReady) (rest : List SelectReady)
    (hdone : r.done = true) (hcase : r.tick = false ∨ r.pickTick = false) :
    (∀ (before : List SelectReady) (n : Nat) (c : connector Drv),
      c.refreshAuthTokenPeriodically build creds region n (before ++ r :: rest) =
        ((c.refreshAuthTokenPeriodically build creds region n before).1, true,
         (c.refreshAuthTokenPeriodically build creds region n before).2.2)) ∧
    (∀ (n : Nat) (c : connector Drv),
      c.refreshAuthTokenPeriodically build creds region n (r :: rest) = (c, true, [])) := by
  have hcond : (r.done && !(r.tick && r.pickTick)) = true := by
    rcases hcase with ht | hp
    · simp [hdone, ht]
    · simp [hdone, hp]
  have hfirst : ∀ (n : Nat) (c : connector Drv),
      c.refreshAuthTokenPeriodically build creds region n (r :: rest) = (c, true, []) := by
    intro n c
    rw [connector.refreshAuthTokenPeriodically, if_pos hcond]
  refine ⟨?_, hfirst⟩
  intro before
  induction before with
  | nil =>
    intro n c
    rw [List.nil_append, hfirst]
    simp [connector.refreshAuthTokenPeriodically]
  | cons p before ih =>
    intro n c
    rw [List.cons_append]
    by_cases hp : (p.done && !(p.tick && p.pickTick)) = true
    · rw [connector.refreshAuthTokenPeriodically, if_pos hp,
        connector.refreshAuthTokenPeriodically, if_pos hp]
    · by_cases ht : p.tick = true
      · rw [connector.refreshAuthTokenPeriodically, if_neg hp, if_pos ht]
        conv_rhs => rw [connector.refreshAuthTokenPeriodically, if_neg hp, if_pos ht]
        rcases hres : c.refreshAuthToken (build n) creds region with ⟨c1, e, evs⟩
        cases e with
        | some err => simp only [ih (n + 1) c1]
        | none => simp only [ih (n + 1) c1]
      · rw [connector.refreshAuthTokenPeriodically, if_neg hp, if_neg ht]
        conv_rhs => rw [connector.refreshAuthTokenPeriodically, if_neg hp, if_neg ht]
        exact ih n c

/-- The case `context is done` of the test: the context is cancelled before the
start and no tick is due; and a run of one renewal followed by the cancellation,
after which a due tick is not served. -/
theorem no_renewal_after_cancellation_case_witness :
    (testConnector "").refreshAuthTokenPeriodically tokenAt "static a b c" "" 0
        [onlyDone, onlyTick] = (testConnector "", true, []) ∧
    ((testConnector "").refreshAuthTokenPeriodically tokenAt "static a b c" "" 0
        ([onlyTick] ++ onlyDone :: [onlyTick, onlyTick])).1.password = "localhost:5432#0" := by
  have h := @no_renewal_after_cancellation_case String Unit tokenAt "static a b c" ""
    onlyDone [onlyTick] rfl (Or.inl rfl)
  have h2 := @no_renewal_after_cancellation_case String Unit tokenAt "static a b c" ""
    onlyDone [onlyTick, onlyTick] rfl (Or.inl rfl)
  refine ⟨h.2 0 (testConnector ""), ?_⟩
  rw [h2.1 [onlyTick] 0 (testConnector "")]
  set_option maxRecDepth 100000 in decide

/-! ### Connect and Driver -/

theorem newConnector_fields {Creds Drv : Type} (conf : Config) (driver : Drv)
    (cc : Option (IAMAuthConfig → Creds × Option String))
    (build : String → String → String → Creds → String × Option String)
    (c : connector Drv) (h : (newConnector conf driver cc build).1 = some c) :
    c.dsn = c.assembleDSN ∧ c.host = conf.Host ∧ c.port = conf.Port ∧ c.dbName = conf.DBName ∧
    c.user = conf.User ∧ c.sslMode = conf.SSLMode ∧ c.sslRootCert = conf.SSLRootCert ∧
    c.driver = driver := by
  cases cc with
  | none =>
    simp only [newConnector, Option.some.injEq] at h
    subst h
    exact ⟨rfl, rfl, rfl, rfl, rfl, rfl, rfl, rfl⟩
  | some create =>
    rcases hc : create conf.IAMAuth with ⟨creds, ce⟩
    cases ce with
    | some cause =>
      simp [newConnector, connector.setupIAMAuth, hc, Errorf] at h
    | none =>
      rcases hb : build (conf.Host ++ ":" ++ String.mk (fmtInt conf.Port)) conf.IAMAuth.Region
        conf.User creds with ⟨token, be⟩
      cases be with
      | some cause =>
        simp [newConnector, connector.setupIAMAuth, connector.refreshAuthToken, hc, hb, Errorf,
          Sprintf_endpoint] at h
      | none =>
        simp only [newConnector, connector.setupIAMAuth, connector.refreshAuthToken, hc, hb,
          Sprintf_endpoint, connector.updatePassword, connector.updateDSN,
          Option.some.injEq] at h
        subst h
        exact ⟨rfl, rfl, rfl, rfl, rfl, rfl, rfl, rfl⟩

/-- C14: `Connect` makes exactly one call of the driver's `Open`, with the DSN
that `readDSN` returns, and returns the result pair of that call as it is; it
leaves the connector as it was; `Driver` returns the driver of the connector,
which for a connector made by `newConnector` is the driver given to it. -/
theorem Connect_opens_cached_DSN {Creds Drv Conn : Type}
    (drvOpen : Drv → String → Conn × Option String) (c : connector Drv) :
    (c.Connect drvOpen : (Conn × Option String) × List (ConnEvent Creds Drv)) =
      (drvOpen c.driver c.readDSN, [ConnEvent.driverOpen c.driver c.readDSN]) ∧
    c.step (ConnOp.Connect : ConnOp Creds) = c ∧
    c.Driver = c.driver ∧
    (∀ (conf : Config) (driver : Drv) (cc : Option (IAMAuthConfig → Creds × Option String))
      (build : String → String → String → Creds → String × Option String) (c0 : connector Drv),
      (newConnector conf driver cc build).1 = some c0 → c0.Driver = driver) :=
  ⟨rfl, rfl, rfl, fun conf driver cc build c0 h =>
    (newConnector_fields conf driver cc build c0 h).2.2.2.2.2.2.2⟩

/-- The connector of `TestConnectorConnect`, whose cached DSN is `some dsn`: the
driver is opened once with that DSN, and an error of `Open` is handed back. -/
theorem Connect_opens_cached_DSN_witness :
    (connector.Connect echoOpen { driver := (), dsn := "some dsn" } :
        (String × Option String) × List (ConnEvent String Unit)) =
      (("conn to some dsn", none), [ConnEvent.driverOpen () "some dsn"]) ∧
    (connector.Connect refuseOpen { driver := (), dsn := "some dsn" } :
        (String × Option String) × List (ConnEvent String Unit)) =
      (("", some "connection refused"), [ConnEvent.driverOpen () "some dsn"]) :=
  ⟨(Connect_opens_cached_DSN echoOpen { driver := (), dsn := "some dsn" }).1,
   (Connect_opens_cached_DSN refuseOpen { driver := (), dsn := "some dsn" }).1⟩

/-! ## Provider -/

theorem newConnectorOverride_empty {Creds Drv : Type} (conf : Config) (driver : Drv)
    (cc : Option (IAMAuthConfig → Creds × Option String))
    (build : String → String → String → Creds → String × Option String) :
    newConnectorOverride conf driver cc build "" = newConnector conf driver cc build := by
  simp [newConnectorOverride]

/-- C15: `Provide` stops at the first failing stage. A failure of `New` gives
`failed to initialize config, err: <cause>` with no call at all; a failure of
the connector gives `failed to initialize connector, err: <cause>` after the
events of the connector only (the storage creator is not called); a failure of
the storage creator gives `failed to initialize store, err: <cause>` with no
pool setter called. Each returns no storage, and `Provide` returns a storage if
and only if the three stages succeed. -/
theorem Provide_stops_at_first_failure {G Creds Drv S : Type} (lib : Lib G Creds)
    (p : GrafeasStorageProvider Creds Drv S) (confi : G) :
    (∀ cause : String, (New lib.convert lib.urlParse confi).2 = some cause →
      p.Provide lib confi = (none, some ("failed to initialize config, err: " ++ cause), [])) ∧
    (∀ (conf : Config) (cause : String), New lib.convert lib.urlParse confi = (some conf, none) →
      (newConnector conf p.drv (p.credentialsCreator.map fun create => create 0)
        (lib.buildAuthToken 0)).2.1 = some cause →
      p.Provide lib confi =
        (none, some ("failed to initialize connector, err: " ++ cause),
         (newConnector conf p.drv (p.credentialsCreator.map fun create => create 0)
          (lib.buildAuthToken 0)).2.2.map ProvideEvent.connector)) ∧
    (∀ (conf : Config) (c : connector Drv) (cause : String),
      New lib.convert lib.urlParse confi = (some conf, none) →
      (newConnector conf p.drv (p.credentialsCreator.map fun create => create 0)
        (lib.buildAuthToken 0)).1 = some c →
      (newConnector conf p.drv (p.credentialsCreator.map fun create => create 0)
        (lib.buildAuthToken 0)).2.1 = none →
      (p.storageCreator.Create c conf.PaginationKey).2 = some cause →
      p.Provide lib confi =
        (none, some ("failed to initialize store, err: " ++ cause),
         (newConnector conf p.drv (p.credentialsCreator.map fun create => create 0)
          (lib.buildAuthToken 0)).2.2.map ProvideEvent.connector ++
          [ProvideEvent.storageCreate c conf.PaginationKey])) ∧
    ((p.Provide lib confi).1 ≠ none ↔
      ∃ (conf : Config) (c : connector Drv),
        New lib.convert lib.urlParse confi = (some conf, none) ∧
        (newConnector conf p.drv (p.credentialsCreator.map fun create => create 0)
          (lib.buildAuthToken 0)).1 = some c ∧
        (newConnector conf p.drv (p.credentialsCreator.map fun create => create 0)
          (lib.buildAuthToken 0)).2.1 = none ∧
        (p.storageCreator.Create c conf.PaginationKey).2 = none) ∧
    ((p.Provide lib confi).2.1 ≠ none → (p.Provide lib confi).1 = none) := by
  refine ⟨?_, ?_, ?_, ?_, ?_⟩
  · intro cause h
    rcases hN : New lib.convert lib.urlParse confi with ⟨oc, oe⟩
    rw [hN] at h
    simp only at h
    subst h
    simp [GrafeasStorageProvider.Provide, hN, Errorf, Sprintf_wrap, errMsgInitConfig]
  · intro conf cause hN h
    rcases hC : newConnector conf p.drv (p.credentialsCreator.map fun create => create 0)
      (lib.buildAuthToken 0) with ⟨ocn, oce, evs⟩
    rw [hC] at h
    simp only at h
    subst h
    simp [GrafeasStorageProvider.Provide, newConnectorOverride_empty, hN, hC, Errorf,
      Sprintf_wrap, errMsgInitConnector]
  · intro conf c cause hN h1 h2 h3
    rcases hC : newConnector conf p.drv (p.credentialsCreator.map fun create => create 0)
      (lib.buildAuthToken 0) with ⟨ocn, oce, evs⟩
    rw [hC] at h1 h2
    simp only at h1 h2
    subst h1 h2
    rcases hS : p.storageCreator.Create c conf.PaginationKey with ⟨s, ose⟩
    rw [hS] at h3
    simp only at h3
    subst h3
    simp [GrafeasStorageProvider.Provide, newConnectorOverride_empty, hN, hC, hS, Errorf,
      Sprintf_wrap, errMsgInitStorage]
  · rcases hN : New lib.convert lib.urlParse confi with ⟨oc, oe⟩
    cases oe with
    | some e => simp [GrafeasStorageProvider.Provide, hN, Errorf]
    | none =>
      cases oc with
      | none => simp [GrafeasStorageProvider.Provide, hN]
      | some conf =>
        rcases hC : newConnector conf p.drv (p.credentialsCreator.map fun create => create 0)
          (lib.buildAuthToken 0) with ⟨ocn, oce, evs⟩
        cases oce with
        | some e =>
          simp [GrafeasStorageProvider.Provide, newConnectorOverride_empty, hN, hC, Errorf]
        | none =>
          cases ocn with
          | none => simp [GrafeasStorageProvider.Provide, newConnectorOverride_empty, hN, hC]
          | some c =>
            rcases hS : p.storageCreator.Create c conf.PaginationKey with ⟨s, ose⟩
            cases ose with
            | some e =>
              simp [GrafeasStorageProvider.Provide, newConnectorOverride_empty, hN, hC, hS,
                Errorf]
            | none =>
              simp [GrafeasStorageProvider.Provide, newConnectorOverride_empty, hN, hC, hS]
  · rcases hN : New lib.convert lib.urlParse confi with ⟨oc, oe⟩
    cases oe with
    | some e => simp [GrafeasStorageProvider.Provide, hN, Errorf]
    | none =>
      cases oc with
      | none => simp [GrafeasStorageProvider.Provide, hN]
      | some conf =>
        rcases hC : newConnector conf p.drv (p.credentialsCreator.map fun create => create 0)
          (lib.buildAuthToken 0) with ⟨ocn, oce, evs⟩
        cases oce with
        | some e =>
          simp [GrafeasStorageProvider.Provide, newConnectorOverride_empty, hN, hC, Errorf]
        | none =>
          cases ocn with
          | none => simp [GrafeasStorageProvider.Provide, newConnectorOverride_empty, hN, hC]
          | some c =>
            rcases hS : p.storageCreator.Create c conf.PaginationKey with ⟨s, ose⟩
            cases ose with
            | some e =>
              simp [GrafeasStorageProvider.Provide, newConnectorOverride_empty, hN, hC, hS,
                Errorf]
            | none =>
              simp [GrafeasStorageProvider.Provide, newConnectorOverride_empty, hN, hC, hS]

/-- The failing cases of `TestStorageProviderProvide`: `invalid config` (the
empty `Config` has no host), `invalid connector` (the token derivation fails) and
`invalid store` (the storage creator fails). -/
theorem Provide_stops_at_first_failure_witness :
    GrafeasStorageProvider.Provide (testLib {})
        (NewGrafeasStorageProvider () (some fun _ => staticCreator) storeCreator) () =
      (none,
       some ("failed to initialize config, err: " ++
        "invalid field: \"Config.Host\" must not be empty"),
       []) ∧
    (GrafeasStorageProvider.Provide { testLib validConf with buildAuthToken := fun _ => noToken }
        (NewGrafeasStorageProvider () (some fun _ => staticCreator) storeCreator) ()).2.1 =
      some "failed to initialize connector, err: failed to set up IAM auth, err: failed to refresh auth token, err: empty secret key" ∧
    (GrafeasStorageProvider.Provide (testLib validConf)
        (NewGrafeasStorageProvider () (some fun _ => staticCreator) failingStoreCreator) ()).2.1 =
      some "failed to initialize store, err: random error" :=
  ⟨(Provide_stops_at_first_failure (testLib {})
    (NewGrafeasStorageProvider () (some fun _ => staticCreator) storeCreator) ()).1
    "invalid field: \"Config.Host\" must not be empty" (by decide),
   by set_option maxRecDepth 100000 in decide,
   by set_option maxRecDepth 100000 in decide⟩

theorem durationOfSeconds_in_range (n : Int) (h1 : -9223372036 ≤ n) (h2 : n ≤ 9223372036) :
    durationOfSeconds n = n * 1000000000 := by
  unfold durationOfSeconds wrapInt64 Second
  norm_num
  omega

/-- C16: when `New`, the connector and the storage creator succeed, `Provide`
calls `Create` once, with the connector and the pagination key of the config,
then `SetMaxOpenConns`, `SetMaxIdleConns`, `SetConnMaxLifetime` and
`SetConnMaxIdleTime` once each, in this order, on the storage `Create` returned,
with the configured counts and with the durations of the configured seconds (a
configured 0 is passed as 0), and returns a storage whose `Ps` and `Gs` are both
that storage. Before these calls there are only the events of the connector. -/
theorem Provide_success {G Creds Drv S : Type} (lib : Lib G Creds)
    (p : GrafeasStorageProvider Creds Drv S) (confi : G) (conf : Config) (c : connector Drv)
    (s : S)
    (hNew : New lib.convert lib.urlParse confi = (some conf, none))
    (hConn : (newConnector conf p.drv (p.credentialsCreator.map fun create => create 0)
      (lib.buildAuthToken 0)).1 = some c)
    (hConnErr : (newConnector conf p.drv (p.credentialsCreator.map fun create => create 0)
      (lib.buildAuthToken 0)).2.1 = none)
    (hStore : p.storageCreator.Create c conf.PaginationKey = (s, none)) :
    p.Provide lib confi =
      (some { Ps := s, Gs := s }, none,
       (newConnector conf p.drv (p.credentialsCreator.map fun create => create 0)
          (lib.buildAuthToken 0)).2.2.map ProvideEvent.connector ++
        [ProvideEvent.storageCreate c conf.PaginationKey,
         ProvideEvent.SetMaxOpenConns s conf.ConnPool.MaxOpenConns,
         ProvideEvent.SetMaxIdleConns s conf.ConnPool.MaxIdleConns,
         ProvideEvent.SetConnMaxLifetime s
           (durationOfSeconds conf.ConnPool.ConnMaxLifetimeInSeconds),
         ProvideEvent.SetConnMaxIdleTime s
           (durationOfSeconds conf.ConnPool.ConnMaxIdleTimeInSeconds)]) ∧
    durationOfSeconds 0 = 0 := by
  rcases hC : newConnector conf p.drv (p.credentialsCreator.map fun create => create 0)
    (lib.buildAuthToken 0) with ⟨ocn, oce, evs⟩
  rw [hC] at hConn hConnErr
  simp only at hConn hConnErr
  subst hConn hConnErr
  refine ⟨?_, by decide⟩
  simp [GrafeasStorageProvider.Provide, newConnectorOverride_empty, hNew, hC, hStore,
    setConnPoolParams]

/-- The happy path of `TestStorageProviderProvide`: `validConf`, a credentials
creator and a storage creator that succeed; then the same with all pool values 0. -/
theorem Provide_success_witness :
    ((GrafeasStorageProvider.Provide (testLib validConf)
        (NewGrafeasStorageProvider () (some fun _ => staticCreator) storeCreator) ()).1 =
      some { Ps := "store", Gs := "store" }) ∧
    ((GrafeasStorageProvider.Provide (testLib validConf)
        (NewGrafeasStorageProvider () (some fun _ => staticCreator) storeCreator) ()).2.2.drop 4 =
      [ProvideEvent.storageCreate
        { host := "some-host.rds.amazonaws.com", port := 5432, dbName := "grafeas",
          user := "grafeas_rw", password := "some-host.rds.amazonaws.com:5432#0",
          sslMode := "verify-full", sslRootCert := "/opt/rds-ca-2019-root.pem", driver := (),
          dsn := "host=some-host.rds.amazonaws.com port=5432 dbname=grafeas user=grafeas_rw password=some-host.rds.amazonaws.com:5432#0 sslmode=verify-full sslrootcert=/opt/rds-ca-2019-root.pem" }
        "",
       ProvideEvent.SetMaxOpenConns "store" 1,
       ProvideEvent.SetMaxIdleConns "store" 2,
       ProvideEvent.SetConnMaxLifetime "store" 3000000000,
       ProvideEvent.SetConnMaxIdleTime "store" 4000000000]) ∧
    ((GrafeasStorageProvider.Provide (testLib { validConf with ConnPool := {} })
        (NewGrafeasStorageProvider () none storeCreator) ()).2.2 =
      [ProvideEvent.storageCreate
        { host := "some-host.rds.amazonaws.com", port := 5432, dbName := "grafeas",
          user := "grafeas_rw", password := "dummy-password-for-unit-tests-only",
          sslMode := "verify-full", sslRootCert := "/opt/rds-ca-2019-root.pem", driver := (),
          dsn := "host=some-host.rds.amazonaws.com port=5432 dbname=grafeas user=grafeas_rw password=dummy-password-for-unit-tests-only sslmode=verify-full sslrootcert=/opt/rds-ca-2019-root.pem" }
        "",
       ProvideEvent.SetMaxOpenConns "store" 0,
       ProvideEvent.SetMaxIdleConns "store" 0,
       ProvideEvent.SetConnMaxLifetime "store" 0,
       ProvideEvent.SetConnMaxIdleTime "store" 0]) := by
  have h := Provide_success (testLib validConf)
    (NewGrafeasStorageProvider () (some fun _ => staticCreator) storeCreator) ()
    validConf.populateDefaultValues
    { host := "some-host.rds.amazonaws.com", port := 5432, dbName := "grafeas",
      user := "grafeas_rw", password := "some-host.rds.amazonaws.com:5432#0",
      sslMode := "verify-full", sslRootCert := "/opt/rds-ca-2019-root.pem", driver := (),
      dsn := "host=some-host.rds.amazonaws.com port=5432 dbname=grafeas user=grafeas_rw password=some-host.rds.amazonaws.com:5432#0 sslmode=verify-full sslrootcert=/opt/rds-ca-2019-root.pem" }
    "store" (by decide) (by set_option maxRecDepth 100000 in decide) (by decide) (by decide)
  have h0 := Provide_success (testLib { validConf with ConnPool := {} })
    (NewGrafeasStorageProvider () none storeCreator) ()
    ({ validConf with ConnPool := {} } : Config).populateDefaultValues
    { host := "some-host.rds.amazonaws.com", port := 5432, dbName := "grafeas",
      user := "grafeas_rw", password := "dummy-password-for-unit-tests-only",
      sslMode := "verify-full", sslRootCert := "/opt/rds-ca-2019-root.pem", driver := (),
      dsn := "host=some-host.rds.amazonaws.com port=5432 dbname=grafeas user=grafeas_rw password=dummy-password-for-unit-tests-only sslmode=verify-full sslrootcert=/opt/rds-ca-2019-root.pem" }
    "store" (by decide) (by set_option maxRecDepth 100000 in decide) (by decide) (by decide)
  rw [h.1, h0.1]
  refine ⟨rfl, ?_, ?_⟩
  · set_option maxRecDepth 100000 in decide
  · set_option maxRecDepth 100000 in decide

/-- C19, as stated, fails: 9223372037 seconds, a value a 64-bit `int` holds, is
passed on as a negative duration, since 9223372037 times 10^9 exceeds 2^63 - 1
and the `int64` product wraps around. -/
theorem setConnPoolParams_overflow :
    (setConnPoolParams "store" { ConnMaxLifetimeInSeconds := 9223372037 } :
        List (ProvideEvent String Unit String)) =
      [ProvideEvent.SetMaxOpenConns "store" 0,
       ProvideEvent.SetMaxIdleConns "store" 0,
       ProvideEvent.SetConnMaxLifetime "store" (-9223372036709551616),
       ProvideEvent.SetConnMaxIdleTime "store" 0] ∧
    (9223372037 : Int) ≤ 2 ^ 63 - 1 ∧
    durationOfSeconds 9223372037 ≠ 9223372037 * 1000000000 := by
  decide

/-- C19, amended: `setConnPoolParams` passes the two counts unchanged, and for
seconds between -9223372036 and 9223372036 it passes a duration of exactly that
many seconds, the integer times 10^9 nanoseconds. -/
theorem setConnPoolParams_in_range {Creds Drv S : Type} (mgr : S) (conf : ConnPoolConfig)
    (hLife : -9223372036 ≤ conf.ConnMaxLifetimeInSeconds ∧
      conf.ConnMaxLifetimeInSeconds ≤ 9223372036)
    (hIdle : -9223372036 ≤ conf.ConnMaxIdleTimeInSeconds ∧
      conf.ConnMaxIdleTimeInSeconds ≤ 9223372036) :
    (setConnPoolParams mgr conf : List (ProvideEvent Creds Drv S)) =
      [ProvideEvent.SetMaxOpenConns mgr conf.MaxOpenConns,
       ProvideEvent.SetMaxIdleConns mgr conf.MaxIdleConns,
       ProvideEvent.SetConnMaxLifetime mgr (conf.ConnMaxLifetimeInSeconds * 1000000000),
       ProvideEvent.SetConnMaxIdleTime mgr (conf.ConnMaxIdleTimeInSeconds * 1000000000)] := by
  unfold setConnPoolParams
  rw [durationOfSeconds_in_range _ hLife.1 hLife.2, durationOfSeconds_in_range _ hIdle.1 hIdle.2]

/-- The pool values of the test, 1, 2, 3 and 4, and the largest seconds without
overflow. -/
theorem setConnPoolParams_in_range_witness :
    (setConnPoolParams "store" validConf.ConnPool : List (ProvideEvent String Unit String)) =
      [ProvideEvent.SetMaxOpenConns "store" validConf.ConnPool.MaxOpenConns,
       ProvideEvent.SetMaxIdleConns "store" validConf.ConnPool.MaxIdleConns,
       ProvideEvent.SetConnMaxLifetime "store"
        (validConf.ConnPool.ConnMaxLifetimeInSeconds * 1000000000),
       ProvideEvent.SetConnMaxIdleTime "store"
        (validConf.ConnPool.ConnMaxIdleTimeInSeconds * 1000000000)] ∧
    validConf.ConnPool.ConnMaxLifetimeInSeconds * 1000000000 = 3000000000 ∧
    durationOfSeconds 9223372036 = 9223372036000000000 ∧
    durationOfSeconds (-9223372036) = -9223372036000000000 :=
  ⟨setConnPoolParams_in_range "store" validConf.ConnPool (by decide) (by decide),
   by decide, by decide, by decide⟩

/-! ### The invariant of the connector -/

theorem step_keeps_invariant {Creds Drv : Type} (c : connector Drv) (op : ConnOp Creds)
    (h : c.dsn = c.assembleDSN) :
    (c.step op).dsn = (c.step op).assembleDSN ∧ (c.step op).host = c.host ∧
    (c.step op).port = c.port ∧ (c.step op).dbName = c.dbName ∧ (c.step op).user = c.user ∧
    (c.step op).sslMode = c.sslMode ∧ (c.step op).sslRootCert = c.sslRootCert ∧
    (c.step op).driver = c.driver := by
  cases op with
  | updatePassword password => exact ⟨rfl, rfl, rfl, rfl, rfl, rfl, rfl, rfl⟩
  | refreshAuthToken build creds region =>
    simp only [connector.step, connector.refreshAuthToken]
    rcases build (Sprintf "%s:%d" [FmtArg.str c.host, FmtArg.int c.port]) region c.user creds
      with ⟨token, e⟩
    cases e with
    | some err => exact ⟨h, rfl, rfl, rfl, rfl, rfl, rfl, rfl⟩
    | none => exact ⟨rfl, rfl, rfl, rfl, rfl, rfl, rfl, rfl⟩
  | readDSN => exact ⟨h, rfl, rfl, rfl, rfl, rfl, rfl, rfl⟩
  | Connect => exact ⟨h, rfl, rfl, rfl, rfl, rfl, rfl, rfl⟩

theorem run_keeps_invariant {Creds Drv : Type} (ops : List (ConnOp Creds)) :
    ∀ c : connector Drv, c.dsn = c.assembleDSN →
      (c.run ops).dsn = (c.run ops).assembleDSN ∧ (c.run ops).host = c.host ∧
      (c.run ops).port = c.port ∧ (c.run ops).dbName = c.dbName ∧ (c.run ops).user = c.user ∧
      (c.run ops).sslMode = c.sslMode ∧ (c.run ops).sslRootCert = c.sslRootCert ∧
      (c.run ops).driver = c.driver := by
  induction ops with
  | nil => intro c h; exact ⟨h, rfl, rfl, rfl, rfl, rfl, rfl, rfl⟩
  | cons op ops ih =>
    intro c h
    obtain ⟨s1, s2, s3, s4, s5, s6, s7, s8⟩ := step_keeps_invariant c op h
    obtain ⟨r1, r2, r3, r4, r5, r6, r7, r8⟩ := ih (c.step op) s1
    have e : c.run (op :: ops) = (c.step op).run ops := rfl
    rw [e]
    exact ⟨r1, r2.trans s2, r3.trans s3, r4.trans s4, r5.trans s5, r6.trans s6, r7.trans s7,
      r8.trans s8⟩

/-- C20: in every state reached from a connector that `newConnector` returned
by any sequence of `updatePassword`, `refreshAuthToken` (succeeding or not),
`readDSN` and `Connect`, the cached DSN is `assembleDSN` of the current fields,
and host, port, dbName, user, sslMode, sslRootCert and driver are those set at
construction. -/
theorem connector_invariant {Creds Drv : Type} (conf : Config) (driver : Drv)
    (cc : Option (IAMAuthConfig → Creds × Option String))
    (build : String → String → String → Creds → String × Option String)
    (c : connector Drv) (ops : List (ConnOp Creds))
    (h : (newConnector conf driver cc build).1 = some c) :
    (c.run ops).readDSN = (c.run ops).assembleDSN ∧
    (c.run ops).host = conf.Host ∧ (c.run ops).port = conf.Port ∧
    (c.run ops).dbName = conf.DBName ∧ (c.run ops).user = conf.User ∧
    (c.run ops).sslMode = conf.SSLMode ∧ (c.run ops).sslRootCert = conf.SSLRootCert ∧
    (c.run ops).driver = driver := by
  obtain ⟨n1, n2, n3, n4, n5, n6, n7, n8⟩ := newConnector_fields conf driver cc build c h
  obtain ⟨r1, r2, r3, r4, r5, r6, r7, r8⟩ := run_keeps_invariant ops c n1
  exact ⟨r1, r2.trans n2, r3.trans n3, r4.trans n4, r5.trans n5, r6.trans n6, r7.trans n7,
    r8.trans n8⟩

/-- A run from the connector of `validConf` without credentials creator: a new
password, a failed refresh, a read, a successful refresh and a connection. -/
theorem connector_invariant_witness :
    (connector.run
        { host := "some-host.rds.amazonaws.com", port := 5432, dbName := "grafeas",
          user := "grafeas_rw", password := "dummy-password-for-unit-tests-only",
          sslMode := "verify-full", sslRootCert := "/opt/rds-ca-2019-root.pem", driver := (),
          dsn := "host=some-host.rds.amazonaws.com port=5432 dbname=grafeas user=grafeas_rw password=dummy-password-for-unit-tests-only sslmode=verify-full sslrootcert=/opt/rds-ca-2019-root.pem" }
        [ConnOp.updatePassword "abc", ConnOp.refreshAuthToken noToken "anonymous" "",
         ConnOp.readDSN, ConnOp.refreshAuthToken (tokenAt 7) "static a b c" "us-west-2",
         ConnOp.Connect]).readDSN =
      "host=some-host.rds.amazonaws.com port=5432 dbname=grafeas user=grafeas_rw password=some-host.rds.amazonaws.com:5432#7 sslmode=verify-full sslrootcert=/opt/rds-ca-2019-root.pem" := by
  have h := connector_invariant validConf.populateDefaultValues ()
    (none : Option (IAMAuthConfig → String × Option String)) noToken
    { host := "some-host.rds.amazonaws.com", port := 5432, dbName := "grafeas",
      user := "grafeas_rw", password := "dummy-password-for-unit-tests-only",
      sslMode := "verify-full", sslRootCert := "/opt/rds-ca-2019-root.pem", driver := (),
      dsn := "host=some-host.rds.amazonaws.com port=5432 dbname=grafeas user=grafeas_rw password=dummy-password-for-unit-tests-only sslmode=verify-full sslrootcert=/opt/rds-ca-2019-root.pem" }
    [ConnOp.updatePassword "abc", ConnOp.refreshAuthToken noToken "anonymous" "",
     ConnOp.readDSN, ConnOp.refreshAuthToken (tokenAt 7) "static a b c" "us-west-2",
     ConnOp.Connect]
    (by set_option maxRecDepth 100000 in decide)
  rw [h.1]
  set_option maxRecDepth 100000 in decide

/-! ### Reader and writer -/

theorem newConnector_some_no_error {Creds Drv : Type} (conf : Config) (driver : Drv)
    (cc : Option (IAMAuthConfig → Creds × Option String))
    (build : String → String → String → Creds → String × Option String)
    (c : connector Drv) (h : (newConnector conf driver cc build).1 = some c) :
    (newConnector conf driver cc build).2.1 = none := by
  cases cc with
  | none => rfl
  | some create =>
    rcases hc : create conf.IAMAuth with ⟨creds, ce⟩
    cases ce with
    | some cause =>
      simp [newConnector, connector.setupIAMAuth, hc, Errorf] at h
    | none =>
      rcases hb : build (conf.Host ++ ":" ++ String.mk (fmtInt conf.Port)) conf.IAMAuth.Region
        conf.User creds with ⟨token, be⟩
      cases be with
      | some cause =>
        simp [newConnector, connector.setupIAMAuth, connector.refreshAuthToken, hc, hb, Errorf,
          Sprintf_endpoint] at h
      | none =>
        simp [newConnector, connector.setupIAMAuth, connector.refreshAuthToken, hc, hb,
          Sprintf_endpoint]

theorem newConnector_static_password {Creds Drv : Type} (conf : Config) (driver : Drv)
    (build : String → String → String → Creds → String × Option String)
    (c : connector Drv)
    (h : (newConnector conf driver (none : Option (IAMAuthConfig → Creds × Option String))
      build).1 = some c) :
    c.password = conf.Password := by
  simp only [newConnector, Option.some.injEq] at h
  subst h
  rfl

theorem readDSN_eq_of_fields {Drv : Type} (a b : connector Drv)
    (ha : a.dsn = a.assembleDSN) (hb : b.dsn = b.assembleDSN)
    (h1 : a.host = b.host) (h2 : a.port = b.port) (h3 : a.dbName = b.dbName)
    (h4 : a.user = b.user) (h5 : a.password = b.password) (h6 : a.sslMode = b.sslMode)
    (h7 : a.sslRootCert = b.sslRootCert) : a.readDSN = b.readDSN := by
  unfold connector.readDSN
  rw [ha, hb]
  unfold connector.assembleDSN
  rw [h1, h2, h3, h4, h5, h6, h7]

/-- C17, as stated, fails with a credentials creator: reader and writer each
derive a token of their own, and when the two derivations give different tokens
(as successive derivations do in `TestRefreshAuthTokenPeriodically`) the reader
has the host of the writer and another DSN, although the Reader host is unset. -/
theorem ProvideRW_reader_DSN_differs :
    validYaml.populateDefaultValues.Reader = "" ∧
    (GrafeasStorageProvider.ProvideRW (testLib validYaml)
        (NewGrafeasStorageProvider () (some fun _ => staticCreator) storeCreator) ()).2.2.drop 8 =
      [ProvideEvent.storageCreateRW
        (iamConnector "some-host.rds.amazonaws.com:5432#1")
        (iamConnector "some-host.rds.amazonaws.com:5432#0")
        "some_random_key",
       ProvideEvent.SetMaxOpenConns "store" 50,
       ProvideEvent.SetMaxIdleConns "store" 25,
       ProvideEvent.SetConnMaxLifetime "store" 1800000000000,
       ProvideEvent.SetConnMaxIdleTime "store" 900000000000] ∧
    (iamConnector "some-host.rds.amazonaws.com:5432#1").host =
      (iamConnector "some-host.rds.amazonaws.com:5432#0").host ∧
    (iamConnector "some-host.rds.amazonaws.com:5432#1").readDSN ≠
      (iamConnector "some-host.rds.amazonaws.com:5432#0").readDSN := by
  set_option maxRecDepth 100000 in decide

/-- C17, amended: when `ProvideRW` gets its config and both connectors, the
writer has the host of the config, the reader the Reader host of the config (the
host of the config when the Reader host is empty), and port, dbName, user,
sslMode, sslRootCert and driver of the two are equal; they are passed to
`CreateRW` as (reader, writer) with the pagination key. With an empty Reader
host the reader has the host of the writer, and the same DSN whenever the two
passwords are equal, which they are when there is no credentials creator (then
the two connectors are equal). -/
theorem ProvideRW_connectors {G Creds Drv S : Type} (lib : Lib G Creds)
    (p : GrafeasStorageProvider Creds Drv S) (confi : G) (conf : Config)
    (w r : connector Drv)
    (hNew : New lib.convert lib.urlParse confi = (some conf, none))
    (hW : (newConnectorOverride conf p.drv (p.credentialsCreator.map fun create => create 0)
      (lib.buildAuthToken 0) "").1 = some w)
    (hR : (newConnectorOverride conf p.drv (p.credentialsCreator.map fun create => create 1)
      (lib.buildAuthToken 1) conf.Reader).1 = some r) :
    w.host = conf.Host ∧
    r.host = (if conf.Reader = "" then conf.Host else conf.Reader) ∧
    r.port = w.port ∧ r.dbName = w.dbName ∧ r.user = w.user ∧ r.sslMode = w.sslMode ∧
    r.sslRootCert = w.sslRootCert ∧ r.driver = w.driver ∧
    ProvideEvent.storageCreateRW r w conf.PaginationKey ∈ (p.ProvideRW lib confi).2.2 ∧
    (conf.Reader = "" → r.host = w.host) ∧
    (conf.Reader = "" → r.password = w.password → r.readDSN = w.readDSN) ∧
    (p.credentialsCreator = none → r.password = w.password ∧ (conf.Reader = "" → r = w)) := by
  have hWe : (newConnectorOverride conf p.drv
      (p.credentialsCreator.map fun create => create 0) (lib.buildAuthToken 0) "").2.1 = none :=
    newConnector_some_no_error _ _ _ _ w hW
  have hRe : (newConnectorOverride conf p.drv
      (p.credentialsCreator.map fun create => create 1) (lib.buildAuthToken 1)
      conf.Reader).2.1 = none :=
    newConnector_some_no_error _ _ _ _ r hR
  obtain ⟨w1, w2, w3, w4, w5, w6, w7, w8⟩ := newConnector_fields _ _ _ _ w hW
  obtain ⟨r1, r2, r3, r4, r5, r6, r7, r8⟩ := newConnector_fields _ _ _ _ r hR
  have hwHost : w.host = conf.Host := by simpa using w2
  have hrHost : r.host = (if conf.Reader = "" then conf.Host else conf.Reader) := by
    rw [r2]
    by_cases hz : conf.Reader = ""
    · simp [hz]
    · simp [hz]
  have e3 : r.port = w.port := by
    rw [r3, w3]; by_cases hz : conf.Reader = "" <;> simp [hz]
  have e4 : r.dbName = w.dbName := by
    rw [r4, w4]; by_cases hz : conf.Reader = "" <;> simp [hz]
  have e5 : r.user = w.user := by
    rw [r5, w5]; by_cases hz : conf.Reader = "" <;> simp [hz]
  have e6 : r.sslMode = w.sslMode := by
    rw [r6, w6]; by_cases hz : conf.Reader = "" <;> simp [hz]
  have e7 : r.sslRootCert = w.sslRootCert := by
    rw [r7, w7]; by_cases hz : conf.Reader = "" <;> simp [hz]
  have e8 : r.driver = w.driver := by rw [r8, w8]
  have hhost : conf.Reader = "" → r.host = w.host := by
    intro hz
    rw [hrHost, hwHost]
    simp [hz]
  have hdsn : conf.Reader = "" → r.password = w.password → r.readDSN = w.readDSN :=
    fun hz hp => readDSN_eq_of_fields r w r1 w1 (hhost hz) e3 e4 e5 hp e6 e7
  refine ⟨hwHost, hrHost, e3, e4, e5, e6, e7, e8, ?_, hhost, hdsn, ?_⟩
  · rcases hWr : newConnectorOverride conf p.drv
      (p.credentialsCreator.map fun create => create 0) (lib.buildAuthToken 0) ""
      with ⟨ow, owe, evs⟩
    rw [hWr] at hW hWe
    simp only at hW hWe
    subst hW hWe
    rcases hRr : newConnectorOverride conf p.drv
      (p.credentialsCreator.map fun create => create 1) (lib.buildAuthToken 1) conf.Reader
      with ⟨or, ore, evs2⟩
    rw [hRr] at hR hRe
    simp only at hR hRe
    subst hR hRe
    rcases hS : p.storageCreator.CreateRW r w conf.PaginationKey with ⟨s, ose⟩
    cases ose with
    | some e => simp [GrafeasStorageProvider.ProvideRW, hNew, hWr, hRr, hS, Errorf]
    | none => simp [GrafeasStorageProvider.ProvideRW, hNew, hWr, hRr, hS]
  · intro hcc
    rw [hcc] at hW hR
    simp only [Option.map_none', newConnectorOverride] at hW hR
    have pw := newConnector_static_password _ _ _ w hW
    have pr := newConnector_static_password _ _ _ r hR
    have hp : r.password = w.password := by
      rw [pr, pw]; by_cases hz : conf.Reader = "" <;> simp [hz]
    refine ⟨hp, ?_⟩
    intro hz
    simp only [hz, if_true, newConnector, Option.some.injEq] at hW hR
    rw [← hW, ← hR]

/-- With `validConf` and no credentials creator, and an unset Reader host, the
reader is the writer; with a Reader host set, the reader has that host. -/
theorem ProvideRW_connectors_witness :
    (iamConnector "dummy-password-for-unit-tests-only").host = validConf.populateDefaultValues.Host ∧
    (connector.updateDSN
        { iamConnector "dummy-password-for-unit-tests-only" with host := "reader.example.com" }).host
      = (if ({ validConf.populateDefaultValues with Reader := "reader.example.com" } : Config).Reader
            = ""
          then ({ validConf.populateDefaultValues with Reader := "reader.example.com" } : Config).Host
          else ({ validConf.populateDefaultValues with Reader := "reader.example.com" } : Config).Reader)
      := by
  have h := ProvideRW_connectors (testLib validConf)
    (NewGrafeasStorageProvider () none storeCreator) () validConf.populateDefaultValues
    (iamConnector "dummy-password-for-unit-tests-only")
    (iamConnector "dummy-password-for-unit-tests-only")
    (by decide) (by set_option maxRecDepth 100000 in decide)
    (by set_option maxRecDepth 100000 in decide)
  have h2 := ProvideRW_connectors (testLib { validConf with Reader := "reader.example.com" })
    (NewGrafeasStorageProvider () none storeCreator) ()
    { validConf.populateDefaultValues with Reader := "reader.example.com" }
    (iamConnector "dummy-password-for-unit-tests-only")
    (connector.updateDSN
      { iamConnector "dummy-password-for-unit-tests-only" with host := "reader.example.com" })
    (by decide) (by set_option maxRecDepth 100000 in decide)
    (by set_option maxRecDepth 100000 in decide)
  exact ⟨h.1, h2.2.1⟩

/-! ### Password and credentials creator -/

/-- C8, amended: for a config with a non-empty password, `newConnector` called
with no credentials creator does not consult the IAMAuth block (no event at all:
no call of a creator, no token derivation) and caches a DSN that carries the
configured, non-empty password as its password segment; called with a credentials creator
it calls the creator with the IAMAuth block of the config, first thing after the
log line, whatever the password is. -/
theorem newConnector_password_without_creator {Creds Drv : Type} (conf : Config)
    (driver : Drv) (build : String → String → String → Creds → String × Option String)
    (hPassword : conf.Password ≠ "") :
    (∃ c : connector Drv,
      newConnector conf driver (none : Option (IAMAuthConfig → Creds × Option String)) build
        = (some c, none, []) ∧
      c.password = conf.Password ∧ c.password ≠ "" ∧
      c.readDSN = connector.assembleDSN
        { host := conf.Host, port := conf.Port, dbName := conf.DBName, user := conf.User,
          password := conf.Password, sslMode := conf.SSLMode, sslRootCert := conf.SSLRootCert,
          driver := driver } ∧
      conf.Password.data <:+: c.readDSN.data) ∧
    (∀ create : IAMAuthConfig → Creds × Option String,
      (newConnector conf driver (some create) build).2.2.take 2 =
        [ConnEvent.log logsOptInIAMAuth, ConnEvent.credentialsCreate conf.IAMAuth]) := by
  refine ⟨⟨_, rfl, rfl, hPassword, rfl, ?_⟩, ?_⟩
  · exact password_infix_assembleDSN
      { host := conf.Host, port := conf.Port, dbName := conf.DBName, user := conf.User,
        password := conf.Password, sslMode := conf.SSLMode, sslRootCert := conf.SSLRootCert,
        driver := driver }
  · intro create
    rcases hc : create conf.IAMAuth with ⟨creds, ce⟩
    cases ce with
    | some cause => simp [newConnector, connector.setupIAMAuth, hc, Errorf]
    | none =>
      rcases hb : build (conf.Host ++ ":" ++ String.mk (fmtInt conf.Port)) conf.IAMAuth.Region
        conf.User creds with ⟨token, be⟩
      cases be with
      | some cause =>
        simp [newConnector, connector.setupIAMAuth, connector.refreshAuthToken, hc, hb, Errorf,
          Sprintf_endpoint]
      | none =>
        simp [newConnector, connector.setupIAMAuth, connector.refreshAuthToken, hc, hb,
          Sprintf_endpoint]

/-- The config `passwordOnly` without a credentials creator: no event, and the
DSN carries the configured password. -/
theorem newConnector_password_without_creator_witness :
    (newConnector passwordOnly ()
        (none : Option (IAMAuthConfig → String × Option String)) tokenOf).2.2 = [] ∧
    ((∃ c : connector Unit,
      newConnector passwordOnly () (none : Option (IAMAuthConfig → String × Option String))
          tokenOf = (some c, none, []) ∧
      c.password = passwordOnly.Password ∧ c.password ≠ "" ∧
      c.readDSN = connector.assembleDSN
        { host := passwordOnly.Host, port := passwordOnly.Port, dbName := passwordOnly.DBName,
          user := passwordOnly.User, password := passwordOnly.Password,
          sslMode := passwordOnly.SSLMode, sslRootCert := passwordOnly.SSLRootCert,
          driver := () } ∧
      passwordOnly.Password.data <:+: c.readDSN.data) ∧
    (∀ create : IAMAuthConfig → String × Option String,
      (newConnector passwordOnly () (some create) tokenOf).2.2.take 2 =
        [ConnEvent.log logsOptInIAMAuth, ConnEvent.credentialsCreate passwordOnly.IAMAuth])) :=
  ⟨rfl, newConnector_password_without_creator passwordOnly () tokenOf (by decide)⟩

/-- C11, as stated, fails: with the region `us west` and a deriver whose token
does not spell the region out, `refreshAuthToken` succeeds and stores the token,
the DSN contains the token, and the DSN does not contain the region. -/
theorem refreshAuthToken_DSN_without_region :
    ((testConnector "").refreshAuthToken opaqueToken "static a b c" "us west").2.1 = none ∧
    ((testConnector "").refreshAuthToken opaqueToken "static a b c" "us west").1.password =
      "localhost:5432?user=grafeas_rw" ∧
    ((testConnector "").refreshAuthToken opaqueToken "static a b c" "us west").1.readDSN =
      "host=localhost port=5432 dbname=grafeas user=grafeas_rw password=localhost:5432?user=grafeas_rw sslmode=verify-full" ∧
    ¬ ("us west".data <:+:
      ((testConnector "").refreshAuthToken opaqueToken "static a b c" "us west").1.readDSN.data)
    := by
  set_option maxRecDepth 100000 in decide

end GrafeasRds
